import Mathlib

/-!
Verification of the FMS biomechanical analysis pipeline.

Shallow embedding of the analysis core of the repository (pose analysis,
scoring, stereo triangulation, biomechanics helpers, temporal landing
detection) as Lean definitions, together with theorems settling the
specification claims about them.

Modelling conventions:
* JavaScript numbers are modelled as rationals (`ℚ`) where the source
  computation is exact field arithmetic, and as reals (`ℝ`) where the source
  uses transcendental functions (`Math.acos`, `Math.atan`, `Math.sqrt`).
* A JavaScript number that may be non-finite (NaN or ±Infinity) is modelled
  as `Option ℝ` (`none` = non-finite); comparison operators on it return
  `false`, as every comparison with NaN does in JavaScript (each place where
  an Infinity can occur is noted and checked in a comment).
* Thrown exceptions are modelled with `Except String`.
-/

namespace FMS

/-- One tracked anatomical point: position plus detector-supplied visibility
(the `PoseKeypoint` interface of the source). Concrete detector outputs are
finite decimals, modelled as rationals. -/
structure PoseKeypoint where
  x : ℚ
  y : ℚ
  z : ℚ
  visibility : ℚ
deriving DecidableEq

/-- JavaScript number that may be non-finite: `none` models NaN (or Infinity
where a comment notes it), `some x` a finite real value. -/
abbrev JSVal := Option ℝ

/-- JavaScript `Math.round`: round half toward positive infinity. -/
noncomputable def jsRound (x : ℝ) : ℤ := ⌊x + 1 / 2⌋

/-- JavaScript `Math.round` on a rational (used where the rounded value is
exact field arithmetic in the source). -/
def jsRoundQ (q : ℚ) : ℤ := ⌊q + 1 / 2⌋

/-- JavaScript `Math.round(x * 10) / 10` (one-decimal rounding) lifted to a
possibly-NaN value; `Math.round(NaN)/10` is NaN. -/
noncomputable def jround10 (a : JSVal) : JSVal :=
  a.map fun x => ((jsRound (x * 10) : ℤ) : ℝ) / 10

/-- JavaScript `a <= c` where `a` may be NaN (NaN comparisons are false). -/
noncomputable def jsLe (a : JSVal) (c : ℝ) : Bool :=
  match a with
  | none => false
  | some x => decide (x ≤ c)

/-- JavaScript `a < c` where `a` may be NaN. -/
noncomputable def jsLt (a : JSVal) (c : ℝ) : Bool :=
  match a with
  | none => false
  | some x => decide (x < c)

/-- JavaScript `a >= c` where `a` may be NaN. -/
noncomputable def jsGe (a : JSVal) (c : ℝ) : Bool :=
  match a with
  | none => false
  | some x => decide (c ≤ x)

/-- JavaScript `a > c` where `a` may be NaN. -/
noncomputable def jsGt (a : JSVal) (c : ℝ) : Bool :=
  match a with
  | none => false
  | some x => decide (c < x)

/-- JavaScript subtraction where the left operand may be NaN. -/
noncomputable def jsubC (a : JSVal) (c : ℝ) : JSVal :=
  a.map fun x => x - c

/-- JavaScript `Math.abs` where the operand may be NaN. -/
noncomputable def jabs (a : JSVal) : JSVal :=
  a.map fun x => |x|

/-! ## Geometry kernel: 2D angle (poseAnalysis.ts `calculateAngle`) -/

/-- Embedding of `calculateAngle` (poseAnalysis.ts lines 20-43): law-of-cosines
angle in degrees between vectors `point2→point1` and `point2→point3`, using
only the `x`/`y` components. The source divides `dot / (mag1 * mag2)` with no
zero-magnitude guard: when either vector is zero the JavaScript quotient is
`0/0 = NaN`, which `Math.min`, `Math.max` and `Math.acos` propagate, so the
function returns NaN — modelled by the `none` branch (a magnitude is zero iff
the rational sum of squares is zero). -/
noncomputable def calculateAngle (point1 point2 point3 : PoseKeypoint) : JSVal :=
  let v1x : ℚ := point1.x - point2.x
  let v1y : ℚ := point1.y - point2.y
  let v2x : ℚ := point3.x - point2.x
  let v2y : ℚ := point3.y - point2.y
  if v1x * v1x + v1y * v1y = 0 ∨ v2x * v2x + v2y * v2y = 0 then
    none
  else
    let dot : ℝ := (v1x : ℝ) * v2x + (v1y : ℝ) * v2y
    let mag1 : ℝ := Real.sqrt ((v1x : ℝ) * v1x + (v1y : ℝ) * v1y)
    let mag2 : ℝ := Real.sqrt ((v2x : ℝ) * v2x + (v2y : ℝ) * v2y)
    let cosine : ℝ := dot / (mag1 * mag2)
    some (Real.arccos (max (-1) (min 1 cosine)) * 180 / Real.pi)

/-! ## Geometry kernel: 3D plane-projected angle (biomechanics.ts) -/

/-- Plain 3D vector/point (the `Vector3D` interface), rational coordinates. -/
structure Vector3D where
  x : ℚ
  y : ℚ
  z : ℚ
deriving DecidableEq

/-- Anatomical projection plane (`'sagittal' | 'frontal' | 'transverse'`). -/
inductive Plane
  | sagittal
  | frontal
  | transverse
deriving DecidableEq

/-- Embedding of `BiomechanicsCalculator.calculateJointAngle3D`
(biomechanics.ts lines 29-85): vectors from the joint to the proximal and
distal points are projected onto the requested plane and the angle between
the projections is returned in degrees; the source explicitly returns 0 when
either projected magnitude is 0 (`mag === 0` iff the rational sum of squares
is 0). -/
noncomputable def calculateJointAngle3D (proximal joint distal : Vector3D)
    (plane : Plane) : ℝ :=
  let vector1 : Vector3D :=
    ⟨proximal.x - joint.x, proximal.y - joint.y, proximal.z - joint.z⟩
  let vector2 : Vector3D :=
    ⟨distal.x - joint.x, distal.y - joint.y, distal.z - joint.z⟩
  let p1 : Vector3D :=
    match plane with
    | .sagittal => ⟨0, vector1.y, vector1.z⟩
    | .frontal => ⟨vector1.x, vector1.y, 0⟩
    | .transverse => ⟨vector1.x, 0, vector1.z⟩
  let p2 : Vector3D :=
    match plane with
    | .sagittal => ⟨0, vector2.y, vector2.z⟩
    | .frontal => ⟨vector2.x, vector2.y, 0⟩
    | .transverse => ⟨vector2.x, 0, vector2.z⟩
  if p1.x * p1.x + p1.y * p1.y + p1.z * p1.z = 0 ∨
      p2.x * p2.x + p2.y * p2.y + p2.z * p2.z = 0 then
    0
  else
    let dot : ℝ := (p1.x : ℝ) * p2.x + (p1.y : ℝ) * p2.y + (p1.z : ℝ) * p2.z
    let mag1 : ℝ :=
      Real.sqrt ((p1.x : ℝ) * p1.x + (p1.y : ℝ) * p1.y + (p1.z : ℝ) * p1.z)
    let mag2 : ℝ :=
      Real.sqrt ((p2.x : ℝ) * p2.x + (p2.y : ℝ) * p2.y + (p2.z : ℝ) * p2.z)
    Real.arccos (max (-1) (min 1 (dot / (mag1 * mag2)))) * 180 / Real.pi

/-! ## Biomechanics: bilateral symmetry metric -/

/-- Result record of the biomechanics helpers (`BiomechanicalMetric`). -/
structure BiomechanicalMetric where
  name : String
  value : JSVal
  unit : String
  normal : Bool
  warning : Bool
  confidence : ℚ
  clinicalSignificance : String

/-- Embedding of `BiomechanicsCalculator.calculateBilateralSymmetry`
(biomechanics.ts lines 288-305). When `Math.max(left, right) = 0` the
JavaScript division yields NaN (`0/0`) or `+Infinity` (`asymmetry/0` with
`asymmetry > 0`), modelled as `none`; the `<=`/`>` comparisons on that value
then give `normal = false` and `warning = false` in both JavaScript and the
model. The `confidence` field is the source's hard-coded constant 95. -/
noncomputable def calculateBilateralSymmetry (leftMetric rightMetric : ℚ) :
    BiomechanicalMetric :=
  let asymmetry : ℚ := |leftMetric - rightMetric|
  let mx : ℚ := max leftMetric rightMetric
  let symmetryIndex : JSVal :=
    if mx = 0 then none else some ((asymmetry / mx) * 100 : ℚ)
  { name := "Bilateral Symmetry"
    value := jround10 symmetryIndex
    unit := "%"
    normal := jsLe symmetryIndex 10
    warning := jsGt symmetryIndex 10 && jsLe symmetryIndex 15
    confidence := 95
    clinicalSignificance :=
      if jsLe symmetryIndex 10 then "Symmetric movement pattern"
      else "Asymmetric pattern - unilateral intervention needed" }

/-! ## Scoring engine (poseAnalysis.ts `generateAutomaticScore`) -/

/-- Deviation direction of a metric result (`'+' | '-'`). -/
inductive DeviationDirection
  | plus
  | minus
deriving DecidableEq

/-- Runtime evaluation record of one metric (`AssessmentMetricResult`).
`actualValue` and `deviation` may be NaN (see `JSVal`); `confidence` is
integer after the source's `Math.round`; `timestamp` is the wall-clock
`Date.now()` value, carried but never used by the analysis. -/
structure AssessmentMetricResult where
  metricId : String
  name : String
  targetDescription : String
  actualValue : JSVal
  unit : String
  pass : Bool
  warning : Bool
  isCritical : Bool
  category : String
  deviation : JSVal
  deviationDirection : DeviationDirection
  confidence : ℤ
  timestamp : ℤ

/-- Embedding of `generateAutomaticScore` (poseAnalysis.ts lines 515-546):
reduces a metric-result list to a 0-3 clinical score from the counts of
failed critical and failed non-critical metrics. The `testId` argument is
accepted and ignored exactly as in the source. -/
def generateAutomaticScore (testId : String)
    (metricResults : List AssessmentMetricResult) : ℕ :=
  if metricResults.length = 0 then 0
  else
    let criticalMetrics := metricResults.filter fun m => m.isCritical
    let nonCriticalMetrics := metricResults.filter fun m => !m.isCritical
    let criticalPassed := (criticalMetrics.filter fun m => m.pass).length
    let nonCriticalPassed := (nonCriticalMetrics.filter fun m => m.pass).length
    let criticalFailed := criticalMetrics.length - criticalPassed
    let nonCriticalFailed := nonCriticalMetrics.length - nonCriticalPassed
    if criticalFailed = 0 ∧ nonCriticalFailed ≤ 1 then 3
    else if criticalFailed = 1 ∨ (criticalFailed = 0 ∧ nonCriticalFailed ≤ 2) then 2
    else if 2 ≤ criticalFailed ∨ 2 < nonCriticalFailed then 1
    else 0

/-- Rule table of spec §4.4, written from the spec's words (spec-side
definition for the refinement claim C1): first match wins, on the counts of
failed critical and failed non-critical metrics. -/
def specScoreTable (criticalFailed nonCriticalFailed : ℕ) : ℕ :=
  if criticalFailed = 0 ∧ nonCriticalFailed ≤ 1 then 3
  else if criticalFailed = 1 ∨ (criticalFailed = 0 ∧ nonCriticalFailed ≤ 2) then 2
  else if 2 ≤ criticalFailed ∨ 2 < nonCriticalFailed then 1
  else 0

/-- Splitting a Boolean count by a second predicate. -/
theorem countP_split {α : Type} (l : List α) (p q : α → Bool) :
    l.countP p =
      l.countP (fun a => p a && q a) + l.countP (fun a => p a && !q a) := by
  induction l with
  | nil => simp
  | cons a t ih =>
    simp only [List.countP_cons]
    cases hp : p a <;> cases hq : q a <;> simp [hp, hq, ih] <;> omega

/-- Count of failures among the critical (resp. non-critical) metrics equals
the filtered-length difference computed by the source. -/
theorem failedCount_eq (l : List AssessmentMetricResult) (p : AssessmentMetricResult → Bool) :
    (l.filter p).length - ((l.filter p).filter fun m => m.pass).length =
      l.countP fun m => p m && !m.pass := by
  have h1 : (l.filter p).length = l.countP p := (List.countP_eq_length_filter p l).symm
  have h2 : ((l.filter p).filter fun m => m.pass).length =
      l.countP fun m => p m && m.pass := by
    rw [List.filter_filter]
    rw [(List.countP_eq_length_filter (fun m : AssessmentMetricResult => m.pass && p m) l).symm]
    exact List.countP_congr fun a _ => by cases p a <;> cases a.pass <;> simp
  rw [h1, h2, countP_split l p fun m => m.pass]
  omega

/-! ## Temporal analysis: landing-phase detection (temporalAnalysis.ts) -/

/-- Landing-phase record (`LandingPhase`): frame indices into the analyzed
window, duration in milliseconds, and the peak (most negative) vertical
velocity of the phase. -/
structure LandingPhase where
  startFrame : ℕ
  endFrame : ℕ
  impactFrame : ℕ
  duration : ℚ
  maxVelocity : ℚ
deriving DecidableEq

/-- Loop state of `identifyLandingPhases`: the mutable locals of the source's
for-loop (emitted phases, the in-landing flag, the current phase's start
index, running most-negative velocity, and its frame index). -/
structure DetectState where
  phases : List LandingPhase
  inLanding : Bool
  startFrame : ℕ
  maxVelocity : ℚ
  impactFrame : ℕ
deriving DecidableEq

/-- One iteration of the landing-detection loop (temporalAnalysis.ts lines
121-147) at frame index `i` with vertical velocity `v`: enter a landing when
idle and `v < -0.8`; while landing, track the most negative velocity, and
emit one phase and return to idle when `v > -0.2` and more than 15 frames
have elapsed since the landing start (`frameRate` is the analyzer's 90 fps,
`duration` in milliseconds). -/
def detectStep (i : ℕ) (v : ℚ) (s : DetectState) : DetectState :=
  if s.inLanding = false ∧ v < -(4 / 5) then
    { s with inLanding := true, startFrame := i, maxVelocity := v, impactFrame := i }
  else if s.inLanding = true then
    let s1 := if v < s.maxVelocity then
      { s with maxVelocity := v, impactFrame := i } else s
    if -(1 / 5) < v ∧ 15 < i - s1.startFrame then
      { s1 with
        phases := s1.phases ++ [⟨s1.startFrame, i, s1.impactFrame,
          ((i - s1.startFrame : ℕ) : ℚ) / 90 * 1000, s1.maxVelocity⟩]
        inLanding := false }
    else s1
  else s

/-- Run of the landing-detection loop from frame index `i` over the
remaining velocities. -/
def detectLoop : ℕ → List ℚ → DetectState → DetectState
  | _, [], s => s
  | i, v :: rest, s => detectLoop (i + 1) rest (detectStep i v s)

/-- Embedding of `DropJumpAnalyzer.identifyLandingPhases` (temporalAnalysis.ts
lines 112-150) over the vertical-velocity sequence: the source derives
`velocities` from the frame window via `calculateVerticalVelocities` (with
`velocities[0] = 0`) and then runs the loop for `i` from 1, so `velocities[0]`
is never read. -/
def identifyLandingPhases (velocities : List ℚ) : List LandingPhase :=
  (detectLoop 1 (velocities.drop 1)
    { phases := [], inLanding := false, startFrame := 0,
      maxVelocity := 0, impactFrame := 0 }).phases

/-- Synthetic velocity sequence with a 5-frame dip: frames 2-6 at velocity
-1, all other frames of the 30-frame window at 0. -/
def dip5vel : List ℚ := [0, 0] ++ List.replicate 5 (-1) ++ List.replicate 23 0

/-- Splitting a loop run at a list split point. -/
theorem detectLoop_append (xs ys : List ℚ) (i : ℕ) (s : DetectState) :
    detectLoop i (xs ++ ys) s = detectLoop (i + xs.length) ys (detectLoop i xs s) := by
  induction xs generalizing i s with
  | nil => simp [detectLoop]
  | cons v t ih =>
    have h : i + 1 + t.length = i + (v :: t).length := by
      simp only [List.length_cons]
      omega
    calc detectLoop i (v :: t ++ ys) s
        = detectLoop (i + 1) (t ++ ys) (detectStep i v s) := rfl
      _ = detectLoop (i + 1 + t.length) ys
            (detectLoop (i + 1) t (detectStep i v s)) := ih _ _
      _ = detectLoop (i + (v :: t).length) ys (detectLoop i (v :: t) s) := by
            rw [h]
            rfl

/-- While idle, velocities that never cross the -0.8 entry threshold leave
the loop state unchanged. -/
theorem detectLoop_idle (vs : List ℚ) (i : ℕ) (s : DetectState)
    (hl : s.inLanding = false) (hv : ∀ v ∈ vs, -(4 / 5) ≤ v) :
    detectLoop i vs s = s := by
  induction vs generalizing i with
  | nil => rfl
  | cons v t ih =>
    have hstep : detectStep i v s = s := by
      have h1 : ¬(s.inLanding = false ∧ v < -(4 / 5)) := by
        rintro ⟨-, hlt⟩
        exact absurd hlt (not_lt.2 (hv v (List.mem_cons_self v t)))
      have h2 : ¬(s.inLanding = true) := by simp [hl]
      unfold detectStep
      rw [if_neg h1, if_neg h2]
    rw [detectLoop, hstep]
    exact ih (i + 1) fun v hm => hv v (List.mem_cons_of_mem _ hm)

/-- Entering a landing phase. -/
theorem detectStep_enter (i : ℕ) (v : ℚ) (s : DetectState)
    (hl : s.inLanding = false) (hv : v < -(4 / 5)) :
    detectStep i v s =
      { s with inLanding := true, startFrame := i, maxVelocity := v, impactFrame := i } := by
  unfold detectStep
  rw [if_pos ⟨hl, hv⟩]

/-- Leaving a landing phase: when the current velocity is above both the
running minimum and the -0.2 exit threshold and more than 15 frames have
elapsed, one phase is appended and the state returns to idle. -/
theorem detectStep_exit (i : ℕ) (v : ℚ) (s : DetectState)
    (hl : s.inLanding = true) (hnv : ¬ v < s.maxVelocity)
    (hv : -(1 / 5) < v) (hfr : 15 < i - s.startFrame) :
    detectStep i v s =
      { s with
        phases := s.phases ++ [⟨s.startFrame, i, s.impactFrame,
          ((i - s.startFrame : ℕ) : ℚ) / 90 * 1000, s.maxVelocity⟩]
        inLanding := false } := by
  have h1 : ¬(s.inLanding = false ∧ v < -(4 / 5)) := by simp [hl]
  unfold detectStep
  rw [if_neg h1, if_pos hl]
  simp only [if_neg hnv]
  rw [if_pos ⟨hv, hfr⟩]

/-- While in a landing whose velocities stay at or below the -0.2 exit
threshold, the loop keeps the phase open and tracks the running minimum
velocity together with its frame index. -/
theorem detectLoop_landing (vs : List ℚ) (i : ℕ) (s : DetectState)
    (hl : s.inLanding = true)
    (hv : ∀ k, k < vs.length → vs.getD k 0 ≤ -(1 / 5)) :
    (detectLoop i vs s).inLanding = true ∧
    (detectLoop i vs s).phases = s.phases ∧
    (detectLoop i vs s).startFrame = s.startFrame ∧
    (detectLoop i vs s).maxVelocity ≤ s.maxVelocity ∧
    (∀ k, k < vs.length → (detectLoop i vs s).maxVelocity ≤ vs.getD k 0) ∧
    (((detectLoop i vs s).maxVelocity = s.maxVelocity ∧
        (detectLoop i vs s).impactFrame = s.impactFrame) ∨
      (∃ k, k < vs.length ∧ (detectLoop i vs s).impactFrame = i + k ∧
        vs.getD k 0 = (detectLoop i vs s).maxVelocity)) := by
  induction vs generalizing i s with
  | nil =>
    exact ⟨hl, rfl, rfl, le_refl _, fun k hk => absurd hk (by simp), .inl ⟨rfl, rfl⟩⟩
  | cons v t ih =>
    have hv0 : v ≤ -(1 / 5) := by simpa using hv 0 (by simp)
    have hvt : ∀ k, k < t.length → t.getD k 0 ≤ -(1 / 5) := by
      intro k hk
      simpa using hv (k + 1) (by simpa using hk)
    have h1 : ¬(s.inLanding = false ∧ v < -(4 / 5)) := by simp [hl]
    have hnoexit : ¬(-(1 / 5) < v ∧
        15 < i - (if v < s.maxVelocity then
          { s with maxVelocity := v, impactFrame := i } else s).startFrame) := by
      rintro ⟨hgt, -⟩
      exact absurd hv0 (not_le.2 hgt)
    have hstep : detectStep i v s =
        (if v < s.maxVelocity then
          { s with maxVelocity := v, impactFrame := i } else s) := by
      unfold detectStep
      rw [if_neg h1, if_pos hl]
      simp only []
      rw [if_neg hnoexit]
    by_cases hup : v < s.maxVelocity
    · rw [if_pos hup] at hstep
      have ihr := ih (i + 1) { s with maxVelocity := v, impactFrame := i } hl hvt
      rw [detectLoop, hstep]
      obtain ⟨r1, r2, r3, r4, r5, r6⟩ := ihr
      refine ⟨r1, r2, r3, le_trans r4 (le_of_lt hup), ?_, ?_⟩
      · intro k hk
        match k with
        | 0 => simpa using le_trans r4 (le_refl v)
        | k + 1 =>
          have := r5 k (by simpa using hk)
          simpa using this
      · rcases r6 with ⟨hm, him⟩ | ⟨k, hk, him, hval⟩
        · exact .inr ⟨0, by simp, by simpa using him, by simpa using hm.symm⟩
        · refine .inr ⟨k + 1, by simpa using hk, ?_, by simpa using hval⟩
          rw [him]
          omega
    · rw [if_neg hup] at hstep
      have ihr := ih (i + 1) s hl hvt
      rw [detectLoop, hstep]
      obtain ⟨r1, r2, r3, r4, r5, r6⟩ := ihr
      refine ⟨r1, r2, r3, r4, ?_, ?_⟩
      · intro k hk
        match k with
        | 0 =>
          have : s.maxVelocity ≤ v := not_lt.1 hup
          simpa using le_trans r4 this
        | k + 1 =>
          have := r5 k (by simpa using hk)
          simpa using this
      · rcases r6 with hleft | ⟨k, hk, him, hval⟩
        · exact .inl hleft
        · exact .inr ⟨k + 1, by simpa using hk, by rw [him]; omega, by simpa using hval⟩

/-- Unfolding one element of a list drop at a valid index. -/
theorem drop_eq_getD_cons {l : List ℚ} {n : ℕ} (h : n < l.length) :
    l.drop n = l.getD n 0 :: l.drop (n + 1) := by
  induction n generalizing l with
  | zero =>
    cases l with
    | nil => simp at h
    | cons a t => simp
  | succ m ih =>
    cases l with
    | nil => simp at h
    | cons a t => simpa using ih (l := t) (by simpa using h)

/-- Element of a take-of-drop segment, as an index into the original list. -/
theorem segment_getD (l : List ℚ) (a m k : ℕ)
    (hk : k < ((l.drop a).take m).length) :
    ((l.drop a).take m).getD k 0 = l.getD (a + k) 0 := by
  have hlen := hk
  simp only [List.length_take, List.length_drop, lt_min_iff] at hlen
  have h2 : a + k < l.length := by omega
  rw [List.getD_eq_getElem _ 0 hk, List.getD_eq_getElem _ 0 h2]
  rw [List.getElem_take]
  exact List.getElem_drop ..

/-- C8 counterexample: a velocity dip lasting only 5 frames (frames 2-6 at
velocity -1 inside a 30-frame window of zeros) produces one LandingPhase,
not none: the loop leaves the landing state only when the velocity is above
-0.2 AND more than 15 frames have elapsed, so the phase stays open through
the short dip and is emitted at frame 18. -/
theorem C8_counterexample :
    identifyLandingPhases dip5vel = [⟨2, 18, 2, 1600 / 9, -1⟩] := by
  norm_num [identifyLandingPhases, dip5vel, detectLoop, detectStep]

/-- C8 (amended): for every velocity sequence whose first sub-(-0.8) frame is
`s`, which stays at or below -0.2 until frame `e` with `e - s > 15`, rises
above -0.2 at `e`, and never drops below -0.8 again, the detector emits
exactly one LandingPhase: start `s`, end `e`, duration `(e-s)/90*1000` ms,
and impact at a most-negative-velocity frame of the phase. (A dip lasting
only 5 frames also produces one phase in a long enough window, ending at the
first frame that is both above -0.2 and more than 15 frames after the start
— see the counterexample theorem; it produces none only when the window ends
before such a frame.) -/
theorem C8_landing_phase_detection (vel : List ℚ) (s e : ℕ)
    (hs1 : 1 ≤ s) (hse : s < e) (helen : e < vel.length)
    (hgap : 15 < e - s)
    (hpre : ∀ j, 1 ≤ j → j < s → -(4 / 5) ≤ vel.getD j 0)
    (hstart : vel.getD s 0 < -(4 / 5))
    (hdip : ∀ j, s < j → j < e → vel.getD j 0 ≤ -(1 / 5))
    (hend : -(1 / 5) < vel.getD e 0)
    (hpost : ∀ j, e < j → j < vel.length → -(4 / 5) ≤ vel.getD j 0) :
    ∃ ph : LandingPhase,
      identifyLandingPhases vel = [ph] ∧
      ph.startFrame = s ∧ ph.endFrame = e ∧
      ph.duration = ((e - s : ℕ) : ℚ) / 90 * 1000 ∧
      s ≤ ph.impactFrame ∧ ph.impactFrame < e ∧
      ph.maxVelocity = vel.getD ph.impactFrame 0 ∧
      (∀ j, s ≤ j → j ≤ e → ph.maxVelocity ≤ vel.getD j 0) := by
  have hsn : s < vel.length := lt_trans hse helen
  -- decompose the processed suffix into idle prefix, entry frame, dip, exit
  -- frame and idle tail
  have hdd : (vel.drop 1).drop (s - 1) = vel.drop s := by
    rw [List.drop_drop]
    congr 1
    omega
  have hdd2 : (vel.drop (s + 1)).drop (e - (s + 1)) = vel.drop e := by
    rw [List.drop_drop]
    congr 1
    omega
  have hsplit : vel.drop 1 =
      (vel.drop 1).take (s - 1) ++ (vel.getD s 0 ::
        ((vel.drop (s + 1)).take (e - (s + 1)) ++
          (vel.getD e 0 :: vel.drop (e + 1)))) := by
    conv_lhs => rw [← List.take_append_drop (s - 1) (vel.drop 1)]
    rw [hdd, drop_eq_getD_cons hsn]
    congr 2
    conv_lhs => rw [← List.take_append_drop (e - (s + 1)) (vel.drop (s + 1))]
    rw [hdd2, drop_eq_getD_cons helen]
  have hAlen : ((vel.drop 1).take (s - 1)).length = s - 1 := by
    simp only [List.length_take, List.length_drop]
    omega
  have hBlen : ((vel.drop (s + 1)).take (e - (s + 1))).length = e - (s + 1) := by
    simp only [List.length_take, List.length_drop]
    omega
  have hAmem : ∀ v ∈ (vel.drop 1).take (s - 1), -(4 / 5) ≤ v := by
    intro v hm
    obtain ⟨k, hk, hkv⟩ := List.getElem_of_mem hm
    have hkl : k < s - 1 := by rwa [hAlen] at hk
    have hv : ((vel.drop 1).take (s - 1)).getD k 0 = v := by
      rw [List.getD_eq_getElem _ 0 hk, hkv]
    rw [← hv, segment_getD vel 1 (s - 1) k hk]
    exact hpre (1 + k) (by omega) (by omega)
  have hBpos : ∀ k, k < ((vel.drop (s + 1)).take (e - (s + 1))).length →
      ((vel.drop (s + 1)).take (e - (s + 1))).getD k 0 ≤ -(1 / 5) := by
    intro k hk
    have hkl : k < e - (s + 1) := by rwa [hBlen] at hk
    rw [segment_getD vel (s + 1) (e - (s + 1)) k hk]
    exact hdip (s + 1 + k) (by omega) (by omega)
  have hCmem : ∀ v ∈ vel.drop (e + 1), -(4 / 5) ≤ v := by
    intro v hm
    obtain ⟨k, hk, hkv⟩ := List.getElem_of_mem hm
    have hkl : k < vel.length - (e + 1) := by simpa using hk
    have hv : (vel.drop (e + 1)).getD k 0 = v := by
      rw [List.getD_eq_getElem _ 0 hk, hkv]
    have hv2 : (vel.drop (e + 1)).getD k 0 = vel.getD (e + 1 + k) 0 := by
      rw [List.getD_eq_getElem _ 0 hk,
        List.getD_eq_getElem _ 0 (show e + 1 + k < vel.length by omega)]
      exact List.getElem_drop ..
    rw [← hv, hv2]
    exact hpost (e + 1 + k) (by omega) (by omega)
  have hidx1 : 1 + (s - 1) = s := by omega
  have hidx2 : s + 1 + (e - (s + 1)) = e := by omega
  -- run the loop over the decomposition
  set st1 : DetectState :=
    { phases := [], inLanding := true, startFrame := s,
      maxVelocity := vel.getD s 0, impactFrame := s } with hst1
  obtain ⟨p1, p2, p3, p4, p5, p6⟩ :=
    detectLoop_landing ((vel.drop (s + 1)).take (e - (s + 1))) (s + 1) st1 rfl hBpos
  set r1 : DetectState :=
    detectLoop (s + 1) ((vel.drop (s + 1)).take (e - (s + 1))) st1 with hr1
  have hsf : r1.startFrame = s := p3
  have hmax0 : r1.maxVelocity ≤ vel.getD s 0 := p4
  have hmaxlt : r1.maxVelocity < vel.getD e 0 := by
    calc r1.maxVelocity ≤ vel.getD s 0 := hmax0
      _ < -(4 / 5) := hstart
      _ < -(1 / 5) := by norm_num
      _ < vel.getD e 0 := hend
  have hrun : identifyLandingPhases vel =
      [⟨s, e, r1.impactFrame, ((e - s : ℕ) : ℚ) / 90 * 1000, r1.maxVelocity⟩] := by
    unfold identifyLandingPhases
    rw [hsplit, detectLoop_append,
      detectLoop_idle _ 1 _ rfl hAmem, hAlen, hidx1]
    rw [detectLoop, detectStep_enter s _ _ rfl hstart]
    rw [detectLoop_append, hBlen, hidx2]
    dsimp only
    rw [← hst1, ← hr1]
    rw [detectLoop,
      detectStep_exit e _ r1 p1 (not_lt.2 (le_of_lt hmaxlt)) hend
        (by rw [hsf]; exact hgap)]
    rw [detectLoop_idle _ (e + 1) _ rfl hCmem]
    have hph : r1.phases = ([] : List LandingPhase) := p2
    simp only [hph, hsf, List.nil_append]
  refine ⟨⟨s, e, r1.impactFrame, ((e - s : ℕ) : ℚ) / 90 * 1000, r1.maxVelocity⟩,
    hrun, rfl, rfl, rfl, ?_, ?_, ?_, ?_⟩
  · dsimp only
    rcases p6 with ⟨-, him⟩ | ⟨k, -, him, -⟩
    · exact le_of_eq him.symm
    · rw [him]
      omega
  · dsimp only
    rcases p6 with ⟨-, him⟩ | ⟨k, hk, him, -⟩
    · rw [him]
      exact hse
    · rw [hBlen] at hk
      rw [him]
      omega
  · dsimp only
    rcases p6 with ⟨hm, him⟩ | ⟨k, hk, him, hval⟩
    · rw [him]
      exact hm
    · have := segment_getD vel (s + 1) (e - (s + 1)) k hk
      rw [this] at hval
      rw [him, ← hval]
  · dsimp only
    intro j hjs hje
    rcases eq_or_lt_of_le hjs with hjeq | hjgt
    · rw [← hjeq]
      exact hmax0
    · rcases eq_or_lt_of_le hje with hjeq2 | hjlt
      · rw [hjeq2]
        exact le_of_lt hmaxlt
      · have hk : j - (s + 1) < ((vel.drop (s + 1)).take (e - (s + 1))).length := by
          rw [hBlen]
          omega
        have := p5 (j - (s + 1)) hk
        rw [segment_getD vel (s + 1) (e - (s + 1)) _ hk] at this
        have hidx : s + 1 + (j - (s + 1)) = j := by omega
        rwa [hidx] at this

/-- Concrete velocity window for the C8 witness: frames 1-16 at velocity -1
(a 16-frame dip), frames 0 and 17 at 0. -/
def velWitnessC8 : List ℚ :=
  [0, -1, -1, -1, -1, -1, -1, -1, -1, -1, -1, -1, -1, -1, -1, -1, -1, 0]

/-- Witness for C8 at the concrete 16-frame dip: exactly one phase. -/
theorem C8_witness : (identifyLandingPhases velWitnessC8).length = 1 := by
  obtain ⟨ph, hph, -⟩ :=
    C8_landing_phase_detection velWitnessC8 1 17
      (le_refl 1) (by omega) (by simp [velWitnessC8]) (by omega)
      (by intro j h1 h2; omega)
      (by norm_num [velWitnessC8])
      (by
        intro j h1 h2
        interval_cases j <;> norm_num [velWitnessC8])
      (by norm_num [velWitnessC8])
      (by
        intro j h1 h2
        simp [velWitnessC8] at h2
        omega)
  rw [hph]
  rfl

/-! ## Stereo 3D processor (Pose3DProcessor, unnamed/part_003) -/

/-- Matrix entry access `m[i][j]` for the source's `number[][]` matrices
(all call sites index within bounds, so the total 0-defaulted getter agrees
with the source). -/
def matAt (m : List (List ℚ)) (i j : ℕ) : ℚ := (m.getD i []).getD j 0

/-- Per-camera calibration record (`CameraCalibration`, cameraSetup.ts); only
the projection matrix is consumed by the 3D processor. -/
structure CameraCalibration where
  intrinsic : List (List ℚ)
  distortion : List ℚ
  rotation : List (List ℚ)
  translation : List ℚ
  projectionMatrix : List (List ℚ)
deriving DecidableEq

/-- Stereo calibration record (`StereoCalibration`, cameraSetup.ts). -/
structure StereoCalibration where
  camera1 : CameraCalibration
  camera2 : CameraCalibration
  fundamentalMatrix : List (List ℚ)
  essentialMatrix : List (List ℚ)
  baseline : ℚ
  isCalibrated : Bool
deriving DecidableEq

/-- Real-valued 3D point: the processor's output coordinates become
irrational once the anatomical-constraint stage divides by `Math.sqrt`
lengths, so post-triangulation landmarks are modelled over `ℝ`. -/
structure Vector3R where
  x : ℝ
  y : ℝ
  z : ℝ

/-- Coercion of a rational triangulated point into the real-valued stage. -/
def Vector3D.toR (v : Vector3D) : Vector3R := ⟨(v.x : ℝ), (v.y : ℝ), (v.z : ℝ)⟩

/-- Output frame of the 3D processor (`Pose3DLandmarks`). The
`processingTime` field is the source's wall-clock measurement, modelled as
0 (no claim concerns it). -/
structure Pose3DLandmarks where
  landmarks : List Vector3R
  confidence : ℝ
  timestamp : ℚ
  processingTime : ℚ

/-- Embedding of `Pose3DProcessor.determinant3x3` (part_003 lines 308-312). -/
def determinant3x3 (m : List (List ℚ)) : ℚ :=
  matAt m 0 0 * (matAt m 1 1 * matAt m 2 2 - matAt m 1 2 * matAt m 2 1) -
    matAt m 0 1 * (matAt m 1 0 * matAt m 2 2 - matAt m 1 2 * matAt m 2 0) +
    matAt m 0 2 * (matAt m 1 0 * matAt m 2 1 - matAt m 1 1 * matAt m 2 0)

/-- Embedding of `Pose3DProcessor.invert3x3` (part_003 lines 282-306):
cofactor inverse of a 3x3 matrix; throws "Matrix is singular" when
`|det| < 1e-10`, modelled as an `Except` error. -/
def invert3x3 (m : List (List ℚ)) : Except String (List (List ℚ)) :=
  let det := determinant3x3 m
  if |det| < 1 / 10000000000 then
    .error "Matrix is singular"
  else
    .ok [
      [(matAt m 1 1 * matAt m 2 2 - matAt m 1 2 * matAt m 2 1) / det,
        (matAt m 0 2 * matAt m 2 1 - matAt m 0 1 * matAt m 2 2) / det,
        (matAt m 0 1 * matAt m 1 2 - matAt m 0 2 * matAt m 1 1) / det],
      [(matAt m 1 2 * matAt m 2 0 - matAt m 1 0 * matAt m 2 2) / det,
        (matAt m 0 0 * matAt m 2 2 - matAt m 0 2 * matAt m 2 0) / det,
        (matAt m 0 2 * matAt m 1 0 - matAt m 0 0 * matAt m 1 2) / det],
      [(matAt m 1 0 * matAt m 2 1 - matAt m 1 1 * matAt m 2 0) / det,
        (matAt m 0 1 * matAt m 2 0 - matAt m 0 0 * matAt m 2 1) / det,
        (matAt m 0 0 * matAt m 1 1 - matAt m 0 1 * matAt m 1 0) / det]]

/-- One entry of `AᵗA` for a 4x3 matrix `A` (the source's generic
`multiplyMatrices(transpose(A), A)` instantiated at the shape of its only
call site, the four-term sum written out). -/
def ataEntry (A : List (List ℚ)) (i j : ℕ) : ℚ :=
  matAt A 0 i * matAt A 0 j + matAt A 1 i * matAt A 1 j +
    matAt A 2 i * matAt A 2 j + matAt A 3 i * matAt A 3 j

/-- One entry of `Aᵗb` for a 4x3 matrix `A` and length-4 vector `b`. -/
def atbEntry (A : List (List ℚ)) (b : List ℚ) (i : ℕ) : ℚ :=
  matAt A 0 i * b.getD 0 0 + matAt A 1 i * b.getD 1 0 +
    matAt A 2 i * b.getD 2 0 + matAt A 3 i * b.getD 3 0

/-- Embedding of `Pose3DProcessor.solveLeastSquares` (part_003 lines
126-135): normal equations `AᵗA x = Aᵗb` solved with the closed-form 3x3
inverse. -/
def solveLeastSquares (A : List (List ℚ)) (b : List ℚ) :
    Except String (List ℚ) :=
  let AtA : List (List ℚ) := [
    [ataEntry A 0 0, ataEntry A 0 1, ataEntry A 0 2],
    [ataEntry A 1 0, ataEntry A 1 1, ataEntry A 1 2],
    [ataEntry A 2 0, ataEntry A 2 1, ataEntry A 2 2]]
  let Atb : List ℚ := [atbEntry A b 0, atbEntry A b 1, atbEntry A b 2]
  (invert3x3 AtA).map fun invAtA =>
    [matAt invAtA 0 0 * Atb.getD 0 0 + matAt invAtA 0 1 * Atb.getD 1 0 +
        matAt invAtA 0 2 * Atb.getD 2 0,
      matAt invAtA 1 0 * Atb.getD 0 0 + matAt invAtA 1 1 * Atb.getD 1 0 +
        matAt invAtA 1 2 * Atb.getD 2 0,
      matAt invAtA 2 0 * Atb.getD 0 0 + matAt invAtA 2 1 * Atb.getD 1 0 +
        matAt invAtA 2 2 * Atb.getD 2 0]

/-- Embedding of `Pose3DProcessor.triangulatePoint` (part_003 lines 97-124):
Direct Linear Transform from two pixel observations and the two camera
projection matrices. -/
def triangulatePoint (cal : StereoCalibration) (p1 p2 : ℚ × ℚ) :
    Except String Vector3D :=
  let P1 := cal.camera1.projectionMatrix
  let P2 := cal.camera2.projectionMatrix
  let A : List (List ℚ) := [
    [p1.1 * matAt P1 2 0 - matAt P1 0 0, p1.1 * matAt P1 2 1 - matAt P1 0 1,
      p1.1 * matAt P1 2 2 - matAt P1 0 2],
    [p1.2 * matAt P1 2 0 - matAt P1 1 0, p1.2 * matAt P1 2 1 - matAt P1 1 1,
      p1.2 * matAt P1 2 2 - matAt P1 1 2],
    [p2.1 * matAt P2 2 0 - matAt P2 0 0, p2.1 * matAt P2 2 1 - matAt P2 0 1,
      p2.1 * matAt P2 2 2 - matAt P2 0 2],
    [p2.2 * matAt P2 2 0 - matAt P2 1 0, p2.2 * matAt P2 2 1 - matAt P2 1 1,
      p2.2 * matAt P2 2 2 - matAt P2 1 2]]
  let b : List ℚ := [
    matAt P1 0 3 - p1.1 * matAt P1 2 3,
    matAt P1 1 3 - p1.2 * matAt P1 2 3,
    matAt P2 0 3 - p2.1 * matAt P2 2 3,
    matAt P2 1 3 - p2.2 * matAt P2 2 3]
  (solveLeastSquares A b).map fun x => ⟨x.getD 0 0, x.getD 1 0, x.getD 2 0⟩

/-- Loop body of `triangulatePoints` over the index-aligned landmark pairs:
a low-visibility pair contributes the `{0,0,0}` placeholder; otherwise the
pixel-scaled pair is triangulated, and a thrown singular-matrix error
propagates (the source loop has no try/catch). -/
def triangulatePairs (cal : StereoCalibration) :
    List (PoseKeypoint × PoseKeypoint) → Except String (List Vector3D)
  | [] => .ok []
  | (lm1, lm2) :: rest =>
    if lm1.visibility < 1 / 2 ∨ lm2.visibility < 1 / 2 then
      (triangulatePairs cal rest).map fun ps => ⟨0, 0, 0⟩ :: ps
    else
      (triangulatePoint cal (lm1.x * 1920, lm1.y * 1080)
        (lm2.x * 1920, lm2.y * 1080)).bind fun p =>
        (triangulatePairs cal rest).map fun ps => p :: ps

/-- Embedding of `Pose3DProcessor.triangulatePoints` (part_003 lines 63-95):
iterates over `min(landmarks1.length, landmarks2.length)` index-aligned
pairs (the `zip`). -/
def triangulatePoints (cal : StereoCalibration)
    (landmarks1 landmarks2 : List PoseKeypoint) : Except String (List Vector3D) :=
  triangulatePairs cal (landmarks1.zip landmarks2)

/-- Embedding of `Pose3DProcessor.distance3D` (part_003 lines 232-238). -/
noncomputable def distance3D (p1 p2 : Vector3R) : ℝ :=
  Real.sqrt ((p1.x - p2.x) ^ 2 + (p1.y - p2.y) ^ 2 + (p1.z - p2.z) ^ 2)

/-- Embedding of `Pose3DProcessor.adjustKneePosition` (part_003 lines
240-255). When `hip = ankle` the JavaScript divisions by `totalLength = 0`
produce NaN coordinates; Lean division by zero gives 0 instead — the branch
is reached only for degenerate coincident joints and no claim concerns it. -/
noncomputable def adjustKneePosition (hip ankle : Vector3R) (targetRatio : ℝ) :
    Vector3R :=
  let totalLength := distance3D hip ankle
  let thighLength := totalLength * targetRatio / (1 + targetRatio)
  let direction : Vector3R :=
    ⟨(ankle.x - hip.x) / totalLength, (ankle.y - hip.y) / totalLength,
      (ankle.z - hip.z) / totalLength⟩
  ⟨hip.x + direction.x * thighLength, hip.y + direction.y * thighLength,
    hip.z + direction.z * thighLength⟩

/-- Embedding of `Pose3DProcessor.applyBiomechanicalConstraints` (part_003
lines 137-164): knees (indices 25, 26) are repositioned along the
hip→ankle direction when the thigh:shank ratio strays more than 0.3 from
1.1. The source mutates a copy in place, but only indices 25 and 26 are
written while 23/24/27/28 are read, so an index-wise map over the input es
equivalent. JavaScript evaluates `thigh/0` as Infinity (ratio test true,
knee adjusted) and `0/0` as NaN (ratio test false, knee kept); the two
zero-shank branches are modelled explicitly. -/
noncomputable def applyBiomechanicalConstraints (landmarks : List Vector3R) :
    List Vector3R :=
  landmarks.mapIdx fun i p =>
    if i = 25 ∨ i = 26 then
      match landmarks[if i = 25 then 23 else 24]?,
          landmarks[if i = 25 then 27 else 28]? with
      | some hip, some ankle =>
        let thighLength := distance3D hip p
        let shankLength := distance3D p ankle
        if shankLength = 0 then
          if thighLength = 0 then p else adjustKneePosition hip ankle (11 / 10)
        else if |thighLength / shankLength - 11 / 10| > 3 / 10 then
          adjustKneePosition hip ankle (11 / 10)
        else p
      | _, _ => p
    else p

/-- Embedding of `Pose3DProcessor.applySmoothingFilter` (part_003 lines
166-174): rounds each coordinate to 3 decimal places. -/
noncomputable def applySmoothingFilter (landmarks : List Vector3R) :
    List Vector3R :=
  landmarks.map fun lm =>
    ⟨((jsRound (lm.x * 1000) : ℤ) : ℝ) / 1000,
      ((jsRound (lm.y * 1000) : ℤ) : ℝ) / 1000,
      ((jsRound (lm.z * 1000) : ℤ) : ℝ) / 1000⟩

/-- Embedding of `Pose3DProcessor.calculateTriangulationAngle` (part_003
lines 201-216). The `landmarkIndex` parameter is accepted and ignored as in
the source. With `baseline = 0` JavaScript evaluates `baseline/depth` as
`0/0 = NaN` and returns NaN where this model returns `arctan 0 = 0`; the
value is only consumed through `min(angle/30, 1)` and no claim concerns the
zero-baseline case. -/
noncomputable def calculateTriangulationAngle (cal : StereoCalibration)
    (landmarkIndex : ℕ) (lm1 lm2 : PoseKeypoint) : ℝ :=
  let baseline := cal.baseline
  let disparity : ℚ := |lm1.x - lm2.x| * 1920
  if disparity < 1 then 0
  else
    let depth : ℚ := baseline * 1000 / disparity
    Real.arctan ((baseline : ℝ) / (depth : ℝ)) * 180 / Real.pi

/-- Accumulating loop of `calculateTriangulationConfidence` (part_003 lines
176-199): for each index with both visibilities above 0.5, add the mean
visibility weighted by the geometric factor `min(angle/30, 1)`. -/
noncomputable def confidenceLoop (cal : StereoCalibration)
    (landmarks2 : List PoseKeypoint) :
    List PoseKeypoint → ℕ → ℝ → ℕ → ℝ × ℕ
  | [], _, total, valid => (total, valid)
  | lm1 :: rest, i, total, valid =>
    let conf2 : ℚ := match landmarks2[i]? with
      | some lm => lm.visibility
      | none => 0
    if 1 / 2 < lm1.visibility ∧ 1 / 2 < conf2 then
      confidenceLoop cal landmarks2 rest (i + 1)
        (total + (((lm1.visibility + conf2) / 2 : ℚ) : ℝ) *
          min (calculateTriangulationAngle cal i lm1
            (landmarks2.getD i ⟨0, 0, 0, 0⟩) / 30) 1)
        (valid + 1)
    else confidenceLoop cal landmarks2 rest (i + 1) total valid

/-- Embedding of `Pose3DProcessor.calculateTriangulationConfidence`: average
of the accumulated weighted confidences over the valid indices, 0 when none
is valid. The `landmarks3D` parameter is accepted and ignored as in the
source. -/
noncomputable def calculateTriangulationConfidence (cal : StereoCalibration)
    (landmarks1 landmarks2 : List PoseKeypoint)
    (landmarks3D : List Vector3R) : ℝ :=
  let tv := confidenceLoop cal landmarks2 landmarks1 0 0 0
  if 0 < tv.2 then tv.1 / (tv.2 : ℝ) else 0

/-- Embedding of `Pose3DProcessor.process3DPose` (part_003 lines 25-61):
fails when the calibration is not flagged calibrated; otherwise triangulates
the stereo pair (propagating any singular-matrix error), applies the
anatomical constraints, smooths, and aggregates the confidence. -/
noncomputable def process3DPose (cal : StereoCalibration)
    (landmarks2D_cam1 landmarks2D_cam2 : List PoseKeypoint) (timestamp : ℚ) :
    Except String Pose3DLandmarks :=
  if cal.isCalibrated = false then
    .error "Cameras not calibrated for 3D processing"
  else
    (triangulatePoints cal landmarks2D_cam1 landmarks2D_cam2).map
      fun landmarks3D =>
        let constrainedLandmarks :=
          applyBiomechanicalConstraints (landmarks3D.map Vector3D.toR)
        let smoothedLandmarks := applySmoothingFilter constrainedLandmarks
        let confidence := calculateTriangulationConfidence cal
          landmarks2D_cam1 landmarks2D_cam2 smoothedLandmarks
        { landmarks := smoothedLandmarks, confidence := confidence,
          timestamp := timestamp, processingTime := 0 }

/-! ## Claim theorems: stereo 3D processor -/

/-- Concrete calibration for the stereo claims: identity-style projective
cameras with a unit x-offset between them, flagged calibrated. -/
def calSing : StereoCalibration :=
  { camera1 :=
      { intrinsic := [], distortion := [], rotation := [], translation := [],
        projectionMatrix := [[1, 0, 0, 0], [0, 1, 0, 0], [0, 0, 1, 0]] }
    camera2 :=
      { intrinsic := [], distortion := [], rotation := [], translation := [],
        projectionMatrix := [[1, 0, 0, -1], [0, 1, 0, 0], [0, 0, 1, 0]] }
    fundamentalMatrix := []
    essentialMatrix := []
    baseline := 1
    isCalibrated := true }

/-- Camera-1 frame for the C2 counterexample: landmark 0 at the origin pixel
of both cameras (degenerate geometry), landmark 1 at pixel x = 1. -/
def frame1Sing : List PoseKeypoint := [⟨0, 0, 0, 1⟩, ⟨1 / 1920, 0, 0, 1⟩]

/-- Camera-2 frame for the C2 counterexample: landmark 0 at the origin
pixel, landmark 1 at pixel x = 2 (unit disparity, cleanly triangulable). -/
def frame2Sing : List PoseKeypoint := [⟨0, 0, 0, 1⟩, ⟨2 / 1920, 0, 0, 1⟩]

/-- C2 counterexample: with landmark 0 degenerate (singular normal
equations) and landmark 1 perfectly triangulable, `process3DPose` returns
the singular-matrix error for the whole frame instead of a 3D frame with
landmark 1 triangulated — the per-point failure is not isolated. The second
conjunct shows landmark 1's pixel pair triangulates fine on its own. -/
theorem C2_counterexample :
    process3DPose calSing frame1Sing frame2Sing 0 =
      .error "Matrix is singular" ∧
    triangulatePoint calSing (1, 0) (2, 0) = .ok ⟨-1, 0, -1⟩ := by
  constructor
  · norm_num [process3DPose, calSing, frame1Sing, frame2Sing,
      triangulatePoints, triangulatePairs, triangulatePoint,
      solveLeastSquares, invert3x3, determinant3x3, ataEntry, atbEntry,
      matAt, Except.bind, Except.map]
  · norm_num [triangulatePoint, calSing, solveLeastSquares, invert3x3,
      determinant3x3, ataEntry, atbEntry, matAt, Except.map]

/-- C2 (amended): a singular normal-equations matrix (`|det(AᵗA)| < 1e-10`)
makes `invert3x3` signal the explicit "Matrix is singular" error, and the
error is not confined to that landmark: the triangulation loop has no
per-point recovery, so `process3DPose` aborts the whole frame with the same
error instead of returning a frame with the remaining landmarks
triangulated. -/
theorem C2_singular_matrix_aborts_frame :
    (∀ m : List (List ℚ), |determinant3x3 m| < 1 / 10000000000 →
      invert3x3 m = .error "Matrix is singular") ∧
    (∀ (cal : StereoCalibration) (l1 l2 : List PoseKeypoint) (t : ℚ)
      (e : String), cal.isCalibrated = true →
      triangulatePoints cal l1 l2 = .error e →
      process3DPose cal l1 l2 t = .error e) := by
  constructor
  · intro m hm
    unfold invert3x3
    rw [if_pos hm]
  · intro cal l1 l2 t e hcal herr
    unfold process3DPose
    rw [if_neg (by simp [hcal]), herr]
    rfl

/-- Witness for C2 (amended) at the all-zero matrix and the concrete
degenerate stereo frame. -/
theorem C2_witness :
    invert3x3 [[0, 0, 0], [0, 0, 0], [0, 0, 0]] = .error "Matrix is singular" ∧
    process3DPose calSing frame1Sing frame2Sing 0 = .error "Matrix is singular" := by
  constructor
  · exact C2_singular_matrix_aborts_frame.1 _ (by norm_num [determinant3x3, matAt])
  · exact C2_singular_matrix_aborts_frame.2 calSing frame1Sing frame2Sing 0
      "Matrix is singular" rfl
      (by norm_num [calSing, frame1Sing, frame2Sing, triangulatePoints,
        triangulatePairs, triangulatePoint, solveLeastSquares, invert3x3,
        determinant3x3, ataEntry, atbEntry, matAt, Except.bind, Except.map])

/-- C7: whenever the stereo calibration does not have `isCalibrated = true`,
`process3DPose` fails with the explicit "not calibrated" error — for every
pair of 2D frames and every timestamp, i.e. on every call until a
calibrated StereoCalibration is supplied. -/
theorem C7_uncalibrated_always_fails (cal : StereoCalibration)
    (landmarks2D_cam1 landmarks2D_cam2 : List PoseKeypoint) (timestamp : ℚ)
    (h : cal.isCalibrated ≠ true) :
    process3DPose cal landmarks2D_cam1 landmarks2D_cam2 timestamp =
      .error "Cameras not calibrated for 3D processing" := by
  unfold process3DPose
  rw [if_pos (by simpa using h)]

/-- Witness for C7 at a concrete uncalibrated calibration record. -/
theorem C7_witness :
    process3DPose
      { camera1 :=
          { intrinsic := [], distortion := [], rotation := [],
            translation := [], projectionMatrix := [] }
        camera2 :=
          { intrinsic := [], distortion := [], rotation := [],
            translation := [], projectionMatrix := [] }
        fundamentalMatrix := [], essentialMatrix := [], baseline := 1,
        isCalibrated := false } frame1Sing frame2Sing 0 =
      .error "Cameras not calibrated for 3D processing" :=
  C7_uncalibrated_always_fails _ frame1Sing frame2Sing 0 (by simp)

/-! ## Joint angle engine (poseAnalysis.ts `calculateAllJointAngles`) -/

/-- Computed joint angle record (`JointAngle`); `angle` and `deviation` may
be NaN when the defining landmarks coincide (see `calculateAngle`). -/
structure JointAngle where
  name : String
  angle : JSVal
  normal : Bool
  warning : Bool
  points : List PoseKeypoint
  targetThresholdDescription : String
  targetMin : ℚ
  targetMax : ℚ
  confidence : ℚ
  deviation : JSVal
  deviationDirection : DeviationDirection

/-- Embedding of the engine's local `getConfidence` helper (poseAnalysis.ts
lines 59-62): mean visibility scaled to a 0-100 percentage, capped at 100. -/
def getConfidence (points : List PoseKeypoint) : ℚ :=
  let avgVisibility :=
    (points.foldl (fun sum p => sum + p.visibility) 0) / (points.length : ℚ)
  min (avgVisibility * 100) 100

/-- Default keypoint used only to state `getD`-indexed properties. -/
def pkDefault : PoseKeypoint := ⟨0, 0, 0, 0⟩

/-- One joint block of `calculateAllJointAngles` (poseAnalysis.ts lines
64-343): every one of the source's eleven copy-pasted blocks follows this
exact shape — existence and visibility gating of the three landmarks, the 2D
angle, mean-visibility confidence, a `[mn, mx]` normal band with a ±5°
warning band, and deviation from the violated band edge ('+' in the
inside-band else branch, as in the source's ternary). -/
noncomputable def jointBlock (landmarks : List PoseKeypoint) (i1 i2 i3 : ℕ)
    (name desc : String) (mn mx : ℚ) : List JointAngle :=
  match landmarks[i1]?, landmarks[i2]?, landmarks[i3]? with
  | some a, some b, some c =>
    if a.visibility > 1 / 2 ∧ b.visibility > 1 / 2 ∧ c.visibility > 1 / 2 then
      let angle := calculateAngle a b c
      let confidence := getConfidence [a, b, c]
      let deviation :=
        if jsLt angle (mn : ℝ) then angle.map fun x => (mn : ℝ) - x
        else if jsGt angle (mx : ℝ) then angle.map fun x => x - (mx : ℝ)
        else some 0
      [{ name := name, angle := angle,
         normal := jsGe angle (mn : ℝ) && jsLe angle (mx : ℝ),
         warning := (jsGe angle ((mn : ℝ) - 5) && jsLt angle (mn : ℝ)) ||
           (jsGt angle (mx : ℝ) && jsLe angle ((mx : ℝ) + 5)),
         points := [a, b, c], targetThresholdDescription := desc,
         targetMin := mn, targetMax := mx, confidence := confidence,
         deviation := deviation,
         deviationDirection :=
           if jsLt angle (mn : ℝ) then .minus
           else if jsGt angle (mx : ℝ) then .plus else .plus }]
    else []
  | _, _, _ => []

/-- Embedding of `calculateAllJointAngles` (poseAnalysis.ts lines 52-349):
an empty list for frames with fewer than 33 landmarks, otherwise the fixed
catalog of eleven joint blocks in source order. -/
noncomputable def calculateAllJointAngles (landmarks : List PoseKeypoint) :
    List JointAngle :=
  if landmarks.length < 33 then [] else
    jointBlock landmarks 12 11 13 "Left Shoulder" "90° - 180°" 90 180 ++
    jointBlock landmarks 11 12 14 "Right Shoulder" "90° - 180°" 90 180 ++
    jointBlock landmarks 11 13 15 "Left Elbow" "90° - 180°" 90 180 ++
    jointBlock landmarks 12 14 16 "Right Elbow" "90° - 180°" 90 180 ++
    jointBlock landmarks 11 23 25 "Left Hip" "90° - 120°" 90 120 ++
    jointBlock landmarks 12 24 26 "Right Hip" "90° - 120°" 90 120 ++
    jointBlock landmarks 23 25 27 "Left Knee" "90° - 130°" 90 130 ++
    jointBlock landmarks 24 26 28 "Right Knee" "90° - 130°" 90 130 ++
    jointBlock landmarks 25 27 31 "Left Ankle" "85° - 95°" 85 95 ++
    jointBlock landmarks 26 28 32 "Right Ankle" "85° - 95°" 85 95 ++
    jointBlock landmarks 11 23 24 "Torso Alignment" "85° - 95°" 85 95

/-- Closed form of a joint block at in-bounds indices: the singleton gated
by the three visibility conditions. -/
theorem jointBlock_eq (landmarks : List PoseKeypoint) (i1 i2 i3 : ℕ)
    (name desc : String) (mn mx : ℚ)
    (h1 : i1 < landmarks.length) (h2 : i2 < landmarks.length)
    (h3 : i3 < landmarks.length) :
    jointBlock landmarks i1 i2 i3 name desc mn mx =
      if (landmarks.getD i1 pkDefault).visibility > 1 / 2 ∧
          (landmarks.getD i2 pkDefault).visibility > 1 / 2 ∧
          (landmarks.getD i3 pkDefault).visibility > 1 / 2 then
        [{ name := name,
           angle := calculateAngle (landmarks.getD i1 pkDefault)
             (landmarks.getD i2 pkDefault) (landmarks.getD i3 pkDefault),
           normal := jsGe (calculateAngle (landmarks.getD i1 pkDefault)
               (landmarks.getD i2 pkDefault) (landmarks.getD i3 pkDefault)) (mn : ℝ) &&
             jsLe (calculateAngle (landmarks.getD i1 pkDefault)
               (landmarks.getD i2 pkDefault) (landmarks.getD i3 pkDefault)) (mx : ℝ),
           warning := (jsGe (calculateAngle (landmarks.getD i1 pkDefault)
                 (landmarks.getD i2 pkDefault) (landmarks.getD i3 pkDefault)) ((mn : ℝ) - 5) &&
               jsLt (calculateAngle (landmarks.getD i1 pkDefault)
                 (landmarks.getD i2 pkDefault) (landmarks.getD i3 pkDefault)) (mn : ℝ)) ||
             (jsGt (calculateAngle (landmarks.getD i1 pkDefault)
                 (landmarks.getD i2 pkDefault) (landmarks.getD i3 pkDefault)) (mx : ℝ) &&
               jsLe (calculateAngle (landmarks.getD i1 pkDefault)
                 (landmarks.getD i2 pkDefault) (landmarks.getD i3 pkDefault)) ((mx : ℝ) + 5)),
           points := [landmarks.getD i1 pkDefault, landmarks.getD i2 pkDefault,
             landmarks.getD i3 pkDefault],
           targetThresholdDescription := desc,
           targetMin := mn, targetMax := mx,
           confidence := getConfidence [landmarks.getD i1 pkDefault,
             landmarks.getD i2 pkDefault, landmarks.getD i3 pkDefault],
           deviation :=
             if jsLt (calculateAngle (landmarks.getD i1 pkDefault)
                 (landmarks.getD i2 pkDefault) (landmarks.getD i3 pkDefault)) (mn : ℝ) then
               (calculateAngle (landmarks.getD i1 pkDefault)
                 (landmarks.getD i2 pkDefault) (landmarks.getD i3 pkDefault)).map
                   fun x => (mn : ℝ) - x
             else if jsGt (calculateAngle (landmarks.getD i1 pkDefault)
                 (landmarks.getD i2 pkDefault) (landmarks.getD i3 pkDefault)) (mx : ℝ) then
               (calculateAngle (landmarks.getD i1 pkDefault)
                 (landmarks.getD i2 pkDefault) (landmarks.getD i3 pkDefault)).map
                   fun x => x - (mx : ℝ)
             else some 0,
           deviationDirection :=
             if jsLt (calculateAngle (landmarks.getD i1 pkDefault)
                 (landmarks.getD i2 pkDefault) (landmarks.getD i3 pkDefault)) (mn : ℝ) then
               .minus
             else if jsGt (calculateAngle (landmarks.getD i1 pkDefault)
                 (landmarks.getD i2 pkDefault) (landmarks.getD i3 pkDefault)) (mx : ℝ) then
               .plus
             else .plus }]
      else [] := by
  unfold jointBlock
  rw [List.getElem?_eq_getElem h1, List.getElem?_eq_getElem h2,
    List.getElem?_eq_getElem h3]
  rw [List.getD_eq_getElem landmarks pkDefault h1,
    List.getD_eq_getElem landmarks pkDefault h2,
    List.getD_eq_getElem landmarks pkDefault h3]

/-- Membership in a gated singleton list. -/
theorem mem_ite_singleton {c : Prop} [Decidable c] (x ja : JointAngle) :
    (ja ∈ if c then [x] else ([] : List JointAngle)) ↔ c ∧ ja = x := by
  split_ifs with h <;> simp [h]

/-- Three-point instance of `getConfidence`. -/
theorem getConfidence_three (a b c : PoseKeypoint) :
    getConfidence [a, b, c] =
      min (((a.visibility + b.visibility + c.visibility) / 3) * 100) 100 := by
  simp only [getConfidence, List.foldl, List.length_cons, List.length_nil]
  norm_num

/-- Catalog entry used to state C6: a joint's name and the indices of its
three defining landmarks. -/
structure JointSpec where
  name : String
  i1 : ℕ
  i2 : ℕ
  i3 : ℕ
deriving DecidableEq

/-- The engine's fixed joint catalog in source order. -/
def jointCatalog : List JointSpec := [
  ⟨"Left Shoulder", 12, 11, 13⟩, ⟨"Right Shoulder", 11, 12, 14⟩,
  ⟨"Left Elbow", 11, 13, 15⟩, ⟨"Right Elbow", 12, 14, 16⟩,
  ⟨"Left Hip", 11, 23, 25⟩, ⟨"Right Hip", 12, 24, 26⟩,
  ⟨"Left Knee", 23, 25, 27⟩, ⟨"Right Knee", 24, 26, 28⟩,
  ⟨"Left Ankle", 25, 27, 31⟩, ⟨"Right Ankle", 26, 28, 32⟩,
  ⟨"Torso Alignment", 11, 23, 24⟩]

/-- Visibility gate of a joint block, as a predicate on the three defining
landmark indices. -/
def visibleTriple (lm : List PoseKeypoint) (i1 i2 i3 : ℕ) : Prop :=
  (lm.getD i1 pkDefault).visibility > 1 / 2 ∧
    (lm.getD i2 pkDefault).visibility > 1 / 2 ∧
    (lm.getD i3 pkDefault).visibility > 1 / 2

/-- Mean visibility of three landmarks scaled to a 0-100 percentage and
capped at 100 (the engine's confidence formula, stated on indices). -/
def meanVisConfidence (lm : List PoseKeypoint) (i1 i2 i3 : ℕ) : ℚ :=
  min ((((lm.getD i1 pkDefault).visibility + (lm.getD i2 pkDefault).visibility +
    (lm.getD i3 pkDefault).visibility) / 3) * 100) 100

/-- A joint block contributes an element of a given name exactly when the
block's own name matches and its three landmarks pass the visibility gate. -/
theorem jointBlock_exists_name_iff (lm : List PoseKeypoint) (i1 i2 i3 : ℕ)
    (name desc : String) (mn mx : ℚ) (N : String)
    (h1 : i1 < lm.length) (h2 : i2 < lm.length) (h3 : i3 < lm.length) :
    (∃ ja ∈ jointBlock lm i1 i2 i3 name desc mn mx, ja.name = N) ↔
      (name = N ∧ visibleTriple lm i1 i2 i3) := by
  rw [jointBlock_eq lm i1 i2 i3 name desc mn mx h1 h2 h3]
  by_cases hvis : (lm.getD i1 pkDefault).visibility > 1 / 2 ∧
    (lm.getD i2 pkDefault).visibility > 1 / 2 ∧
    (lm.getD i3 pkDefault).visibility > 1 / 2
  · rw [if_pos hvis]
    constructor
    · rintro ⟨ja, hja, hname⟩
      rw [List.mem_singleton] at hja
      subst hja
      exact ⟨hname, hvis⟩
    · rintro ⟨hn, -⟩
      exact ⟨_, List.mem_singleton_self _, hn⟩
  · rw [if_neg hvis]
    constructor
    · rintro ⟨ja, hja, -⟩
      exact absurd hja (List.not_mem_nil ja)
    · rintro ⟨-, hv⟩
      exact absurd hv hvis

/-- Every element a joint block emits carries the block's name and the
mean-visibility confidence of its three landmarks. -/
theorem jointBlock_name_conf (lm : List PoseKeypoint) (i1 i2 i3 : ℕ)
    (name desc : String) (mn mx : ℚ)
    (h1 : i1 < lm.length) (h2 : i2 < lm.length) (h3 : i3 < lm.length) :
    ∀ ja ∈ jointBlock lm i1 i2 i3 name desc mn mx,
      ja.name = name ∧ ja.confidence = meanVisConfidence lm i1 i2 i3 := by
  intro ja hja
  rw [jointBlock_eq lm i1 i2 i3 name desc mn mx h1 h2 h3] at hja
  by_cases hvis : (lm.getD i1 pkDefault).visibility > 1 / 2 ∧
    (lm.getD i2 pkDefault).visibility > 1 / 2 ∧
    (lm.getD i3 pkDefault).visibility > 1 / 2
  · rw [if_pos hvis] at hja
    rw [List.mem_singleton] at hja
    subst hja
    exact ⟨rfl, getConfidence_three _ _ _⟩
  · rw [if_neg hvis] at hja
    simp at hja

set_option maxHeartbeats 1600000 in
/-- C6: for every frame with at least 33 landmarks and every catalog joint,
a JointAngle with that joint's name is emitted iff all three defining
landmarks have visibility strictly greater than 0.5 (an insufficiently
visible joint is omitted, never reported as zero), and every emitted
JointAngle's confidence is the mean visibility of its three points scaled
to 0-100 and capped at 100 (`meanVisConfidence`). -/
theorem C6_joint_angle_gating (landmarks : List PoseKeypoint)
    (h : 33 ≤ landmarks.length) (j : JointSpec) (hj : j ∈ jointCatalog) :
    ((∃ ja ∈ calculateAllJointAngles landmarks, ja.name = j.name) ↔
      visibleTriple landmarks j.i1 j.i2 j.i3) ∧
    (∀ ja ∈ calculateAllJointAngles landmarks, ja.name = j.name →
      ja.confidence = meanVisConfidence landmarks j.i1 j.i2 j.i3) := by
  have hlen : ¬ landmarks.length < 33 := by omega
  have hexp : calculateAllJointAngles landmarks =
      jointBlock landmarks 12 11 13 "Left Shoulder" "90° - 180°" 90 180 ++
      jointBlock landmarks 11 12 14 "Right Shoulder" "90° - 180°" 90 180 ++
      jointBlock landmarks 11 13 15 "Left Elbow" "90° - 180°" 90 180 ++
      jointBlock landmarks 12 14 16 "Right Elbow" "90° - 180°" 90 180 ++
      jointBlock landmarks 11 23 25 "Left Hip" "90° - 120°" 90 120 ++
      jointBlock landmarks 12 24 26 "Right Hip" "90° - 120°" 90 120 ++
      jointBlock landmarks 23 25 27 "Left Knee" "90° - 130°" 90 130 ++
      jointBlock landmarks 24 26 28 "Right Knee" "90° - 130°" 90 130 ++
      jointBlock landmarks 25 27 31 "Left Ankle" "85° - 95°" 85 95 ++
      jointBlock landmarks 26 28 32 "Right Ankle" "85° - 95°" 85 95 ++
      jointBlock landmarks 11 23 24 "Torso Alignment" "85° - 95°" 85 95 := by
    unfold calculateAllJointAngles
    rw [if_neg hlen]
  have hexists : ∀ N : String,
      (∃ ja ∈ calculateAllJointAngles landmarks, ja.name = N) ↔
        (("Left Shoulder" = N ∧ visibleTriple landmarks 12 11 13) ∨
          ("Right Shoulder" = N ∧ visibleTriple landmarks 11 12 14) ∨
          ("Left Elbow" = N ∧ visibleTriple landmarks 11 13 15) ∨
          ("Right Elbow" = N ∧ visibleTriple landmarks 12 14 16) ∨
          ("Left Hip" = N ∧ visibleTriple landmarks 11 23 25) ∨
          ("Right Hip" = N ∧ visibleTriple landmarks 12 24 26) ∨
          ("Left Knee" = N ∧ visibleTriple landmarks 23 25 27) ∨
          ("Right Knee" = N ∧ visibleTriple landmarks 24 26 28) ∨
          ("Left Ankle" = N ∧ visibleTriple landmarks 25 27 31) ∨
          ("Right Ankle" = N ∧ visibleTriple landmarks 26 28 32) ∨
          ("Torso Alignment" = N ∧ visibleTriple landmarks 11 23 24)) := by
    intro N
    rw [hexp]
    simp only [List.mem_append, or_and_right, exists_or]
    rw [jointBlock_exists_name_iff landmarks 12 11 13 _ _ _ _ N (by omega) (by omega) (by omega),
      jointBlock_exists_name_iff landmarks 11 12 14 _ _ _ _ N (by omega) (by omega) (by omega),
      jointBlock_exists_name_iff landmarks 11 13 15 _ _ _ _ N (by omega) (by omega) (by omega),
      jointBlock_exists_name_iff landmarks 12 14 16 _ _ _ _ N (by omega) (by omega) (by omega),
      jointBlock_exists_name_iff landmarks 11 23 25 _ _ _ _ N (by omega) (by omega) (by omega),
      jointBlock_exists_name_iff landmarks 12 24 26 _ _ _ _ N (by omega) (by omega) (by omega),
      jointBlock_exists_name_iff landmarks 23 25 27 _ _ _ _ N (by omega) (by omega) (by omega),
      jointBlock_exists_name_iff landmarks 24 26 28 _ _ _ _ N (by omega) (by omega) (by omega),
      jointBlock_exists_name_iff landmarks 25 27 31 _ _ _ _ N (by omega) (by omega) (by omega),
      jointBlock_exists_name_iff landmarks 26 28 32 _ _ _ _ N (by omega) (by omega) (by omega),
      jointBlock_exists_name_iff landmarks 11 23 24 _ _ _ _ N (by omega) (by omega) (by omega)]
    simp only [or_assoc]
  have hconf : ∀ ja ∈ calculateAllJointAngles landmarks,
      (ja.name = "Left Shoulder" ∧ ja.confidence = meanVisConfidence landmarks 12 11 13) ∨
      (ja.name = "Right Shoulder" ∧ ja.confidence = meanVisConfidence landmarks 11 12 14) ∨
      (ja.name = "Left Elbow" ∧ ja.confidence = meanVisConfidence landmarks 11 13 15) ∨
      (ja.name = "Right Elbow" ∧ ja.confidence = meanVisConfidence landmarks 12 14 16) ∨
      (ja.name = "Left Hip" ∧ ja.confidence = meanVisConfidence landmarks 11 23 25) ∨
      (ja.name = "Right Hip" ∧ ja.confidence = meanVisConfidence landmarks 12 24 26) ∨
      (ja.name = "Left Knee" ∧ ja.confidence = meanVisConfidence landmarks 23 25 27) ∨
      (ja.name = "Right Knee" ∧ ja.confidence = meanVisConfidence landmarks 24 26 28) ∨
      (ja.name = "Left Ankle" ∧ ja.confidence = meanVisConfidence landmarks 25 27 31) ∨
      (ja.name = "Right Ankle" ∧ ja.confidence = meanVisConfidence landmarks 26 28 32) ∨
      (ja.name = "Torso Alignment" ∧ ja.confidence = meanVisConfidence landmarks 11 23 24) := by
    intro ja hja
    rw [hexp] at hja
    simp only [List.mem_append, or_assoc] at hja
    rcases hja with hb | hb | hb | hb | hb | hb | hb | hb | hb | hb | hb
    · exact .inl (jointBlock_name_conf landmarks 12 11 13 _ _ _ _ (by omega) (by omega) (by omega) ja hb)
    · exact .inr (.inl (jointBlock_name_conf landmarks 11 12 14 _ _ _ _ (by omega) (by omega) (by omega) ja hb))
    · exact .inr (.inr (.inl (jointBlock_name_conf landmarks 11 13 15 _ _ _ _ (by omega) (by omega) (by omega) ja hb)))
    · exact .inr (.inr (.inr (.inl (jointBlock_name_conf landmarks 12 14 16 _ _ _ _ (by omega) (by omega) (by omega) ja hb))))
    · exact .inr (.inr (.inr (.inr (.inl (jointBlock_name_conf landmarks 11 23 25 _ _ _ _ (by omega) (by omega) (by omega) ja hb)))))
    · exact .inr (.inr (.inr (.inr (.inr (.inl (jointBlock_name_conf landmarks 12 24 26 _ _ _ _ (by omega) (by omega) (by omega) ja hb))))))
    · exact .inr (.inr (.inr (.inr (.inr (.inr (.inl (jointBlock_name_conf landmarks 23 25 27 _ _ _ _ (by omega) (by omega) (by omega) ja hb)))))))
    · exact .inr (.inr (.inr (.inr (.inr (.inr (.inr (.inl (jointBlock_name_conf landmarks 24 26 28 _ _ _ _ (by omega) (by omega) (by omega) ja hb))))))))
    · exact .inr (.inr (.inr (.inr (.inr (.inr (.inr (.inr (.inl (jointBlock_name_conf landmarks 25 27 31 _ _ _ _ (by omega) (by omega) (by omega) ja hb)))))))))
    · exact .inr (.inr (.inr (.inr (.inr (.inr (.inr (.inr (.inr (.inl (jointBlock_name_conf landmarks 26 28 32 _ _ _ _ (by omega) (by omega) (by omega) ja hb))))))))))
    · exact .inr (.inr (.inr (.inr (.inr (.inr (.inr (.inr (.inr (.inr (jointBlock_name_conf landmarks 11 23 24 _ _ _ _ (by omega) (by omega) (by omega) ja hb))))))))))
  fin_cases hj <;>
    refine ⟨by rw [hexists]; simp, fun ja hja hname => ?_⟩ <;>
    rcases hconf ja hja with ⟨hn, hc⟩ | ⟨hn, hc⟩ | ⟨hn, hc⟩ | ⟨hn, hc⟩ | ⟨hn, hc⟩ |
      ⟨hn, hc⟩ | ⟨hn, hc⟩ | ⟨hn, hc⟩ | ⟨hn, hc⟩ | ⟨hn, hc⟩ | ⟨hn, hc⟩ <;>
    first
      | exact hc
      | (rw [hn] at hname; exact absurd hname (by decide))

/-- Witness for C6 at a concrete 33-landmark frame with full visibility,
for the Left Knee catalog joint. -/
theorem C6_witness :
    ((∃ ja ∈ calculateAllJointAngles (List.replicate 33 (⟨0, 0, 0, 1⟩ : PoseKeypoint)),
        ja.name = (JointSpec.mk "Left Knee" 23 25 27).name) ↔
      visibleTriple (List.replicate 33 (⟨0, 0, 0, 1⟩ : PoseKeypoint)) 23 25 27) ∧
    (∀ ja ∈ calculateAllJointAngles (List.replicate 33 (⟨0, 0, 0, 1⟩ : PoseKeypoint)),
      ja.name = (JointSpec.mk "Left Knee" 23 25 27).name →
      ja.confidence =
        meanVisConfidence (List.replicate 33 (⟨0, 0, 0, 1⟩ : PoseKeypoint)) 23 25 27) :=
  C6_joint_angle_gating (List.replicate 33 ⟨0, 0, 0, 1⟩) (by simp)
    ⟨"Left Knee", 23, 25, 27⟩ (by simp [jointCatalog])

/-! ## Metric catalog (data/fmsTests.ts `FMS_TESTS`) -/

/-- Colour coding of a metric's validation criteria (static strings). -/
structure ColorCoding where
  pass : String
  warning : String
  fail : String
deriving DecidableEq

/-- Validation criteria of a metric definition. `warningThreshold` is an
optional field of the source type; no catalog entry sets it. -/
structure ValidationCriteria where
  passThreshold : ℚ
  tolerance : ℚ
  warningThreshold : Option ℚ
  colorCoding : ColorCoding
deriving DecidableEq

/-- Static catalog entry (`AssessmentMetricDefinition`); the prose
`description` field is omitted (never consumed by the analysis). -/
structure AssessmentMetricDefinition where
  id : String
  name : String
  targetDescription : String
  targetMin : Option ℚ
  targetMax : Option ℚ
  targetExact : Option ℚ
  unit : String
  isCritical : Bool
  category : String
  validationCriteria : ValidationCriteria
deriving DecidableEq

/-- Movement-test record (`FMSTest`); of the source's fields only `id`,
`name` and `metrics` are consumed by the analysis functions — the prose
fields (description, instructions, keyPoints, scoringCriteria) are
omitted. -/
structure FMSTest where
  id : String
  name : String
  metrics : List AssessmentMetricDefinition
deriving DecidableEq

/-- The colour coding shared by every catalog entry. -/
def stdColors : ColorCoding := ⟨"#10B981", "#F59E0B", "#EF4444"⟩

/-- Deep-squat knee-valgus-left metric (fmsTests.ts lines 62-80), named so
claim theorems can reference it. -/
def kneeValgusLeftDef : AssessmentMetricDefinition :=
  { id := "knee-valgus-left", name := "Knee Valgus Angle (L)",
    targetDescription := "≤ 15°", targetMin := none, targetMax := some 15,
    targetExact := none, unit := "°", isCritical := true, category := "angle",
    validationCriteria := ⟨15, 5, none, stdColors⟩ }

/-- Deep Squat test (fmsTests.ts lines 4-120). -/
def deepSquatTest : FMSTest :=
  { id := "deep-squat", name := "Deep Squat", metrics := [
    kneeValgusLeftDef,
    { id := "knee-valgus-right", name := "Knee Valgus Angle (R)",
      targetDescription := "≤ 15°", targetMin := none, targetMax := some 15,
      targetExact := none, unit := "°", isCritical := true,
      category := "angle", validationCriteria := ⟨15, 5, none, stdColors⟩ },
    { id := "knee-flexion-depth", name := "Knee Flexion Depth",
      targetDescription := "Hips below knees", targetMin := some 120,
      targetMax := none, targetExact := none, unit := "°", isCritical := true,
      category := "angle", validationCriteria := ⟨120, 5, none, stdColors⟩ }] }

/-- Hurdle Step test (fmsTests.ts lines 121-215). -/
def hurdleStepTest : FMSTest :=
  { id := "hurdle-step", name := "Hurdle Step", metrics := [
    { id := "pelvic-rotation", name := "Pelvic Rotation",
      targetDescription := "≤ 10°", targetMin := none, targetMax := some 10,
      targetExact := none, unit := "°", isCritical := true,
      category := "angle", validationCriteria := ⟨10, 3, none, stdColors⟩ },
    { id := "front-knee-flexion", name := "Front Knee Flexion",
      targetDescription := "≥ 90°", targetMin := some 90, targetMax := none,
      targetExact := none, unit := "°", isCritical := true,
      category := "angle", validationCriteria := ⟨90, 5, none, stdColors⟩ }] }

/-- In-line Lunge test (fmsTests.ts lines 216-312). -/
def inlineLungeTest : FMSTest :=
  { id := "inline-lunge", name := "In-line Lunge", metrics := [
    { id := "pelvic-tilt", name := "Pelvic Tilt",
      targetDescription := "≤ 5°", targetMin := none, targetMax := some 5,
      targetExact := none, unit := "°", isCritical := true,
      category := "angle", validationCriteria := ⟨5, 2, none, stdColors⟩ },
    { id := "trail-leg-hip-flexion", name := "Trail Leg Hip Flexion",
      targetDescription := "≥ 15°", targetMin := some 15, targetMax := none,
      targetExact := none, unit := "°", isCritical := true,
      category := "angle", validationCriteria := ⟨15, 3, none, stdColors⟩ }] }

/-- Active Straight-leg Raise test (fmsTests.ts lines 313-407). -/
def activeStraightLegRaiseTest : FMSTest :=
  { id := "active-straight-leg-raise", name := "Active Straight-leg Raise",
    metrics := [
    { id := "hip-flexion-angle", name := "Hip Flexion Angle",
      targetDescription := "≥ 70°", targetMin := some 70, targetMax := none,
      targetExact := none, unit := "°", isCritical := true,
      category := "angle", validationCriteria := ⟨70, 5, none, stdColors⟩ },
    { id := "pelvic-stability", name := "Pelvic Stability",
      targetDescription := "≤ 5°", targetMin := none, targetMax := some 5,
      targetExact := none, unit := "°", isCritical := true,
      category := "stability", validationCriteria := ⟨5, 2, none, stdColors⟩ }] }

/-- Trunk Stability Push-up test (fmsTests.ts lines 408-502). -/
def trunkStabilityPushupTest : FMSTest :=
  { id := "trunk-stability-pushup", name := "Trunk Stability Push-up",
    metrics := [
    { id := "trunk-stability", name := "Trunk Stability",
      targetDescription := "≤ 5° deviation", targetMin := none,
      targetMax := some 5, targetExact := none, unit := "°",
      isCritical := true, category := "stability",
      validationCriteria := ⟨5, 2, none, stdColors⟩ },
    { id := "body-alignment", name := "Body Alignment",
      targetDescription := "≤ 3° deviation", targetMin := none,
      targetMax := some 3, targetExact := none, unit := "°",
      isCritical := true, category := "alignment",
      validationCriteria := ⟨3, 1, none, stdColors⟩ }] }

/-- Rotary Stability test (fmsTests.ts lines 503-597). -/
def rotaryStabilityTest : FMSTest :=
  { id := "rotary-stability", name := "Rotary Stability", metrics := [
    { id := "spinal-rotation", name := "Spinal Rotation",
      targetDescription := "≤ 5°", targetMin := none, targetMax := some 5,
      targetExact := none, unit := "°", isCritical := true,
      category := "stability", validationCriteria := ⟨5, 2, none, stdColors⟩ },
    { id := "coordination-timing", name := "Coordination & Timing",
      targetDescription := "≤ 100ms difference", targetMin := none,
      targetMax := some 100, targetExact := none, unit := "ms",
      isCritical := false, category := "stability",
      validationCriteria := ⟨100, 25, none, stdColors⟩ }] }

/-- Shoulder Mobility test (fmsTests.ts lines 598-712). -/
def shoulderMobilityTest : FMSTest :=
  { id := "shoulder-mobility", name := "Shoulder Mobility", metrics := [
    { id := "shoulder-internal-rotation", name := "Shoulder Internal Rotation",
      targetDescription := "≥ 70°", targetMin := some 70, targetMax := none,
      targetExact := none, unit := "°", isCritical := true,
      category := "angle", validationCriteria := ⟨70, 5, none, stdColors⟩ },
    { id := "shoulder-external-rotation", name := "Shoulder External Rotation",
      targetDescription := "≥ 90°", targetMin := some 90, targetMax := none,
      targetExact := none, unit := "°", isCritical := true,
      category := "angle", validationCriteria := ⟨90, 5, none, stdColors⟩ },
    { id := "bilateral-symmetry", name := "Bilateral Symmetry",
      targetDescription := "≤ 10° difference", targetMin := none,
      targetMax := some 10, targetExact := none, unit := "°",
      isCritical := false, category := "symmetry",
      validationCriteria := ⟨10, 3, none, stdColors⟩ }] }

/-- Drop Jump test (fmsTests.ts lines 714-914). -/
def dropJumpTest : FMSTest :=
  { id := "drop-jump", name := "Drop Jump Test", metrics := [
    { id := "knee-valgus-3d-left", name := "Knee Valgus 3D (L)",
      targetDescription := "≤ 15°", targetMin := none, targetMax := some 15,
      targetExact := none, unit := "°", isCritical := true,
      category := "angle", validationCriteria := ⟨15, 3, none, stdColors⟩ },
    { id := "knee-valgus-3d-right", name := "Knee Valgus 3D (R)",
      targetDescription := "≤ 15°", targetMin := none, targetMax := some 15,
      targetExact := none, unit := "°", isCritical := true,
      category := "angle", validationCriteria := ⟨15, 3, none, stdColors⟩ },
    { id := "trunk-lean-sagittal", name := "Trunk Lean (Sagittal)",
      targetDescription := "≤ 15°", targetMin := none, targetMax := some 15,
      targetExact := none, unit := "°", isCritical := false,
      category := "angle", validationCriteria := ⟨15, 5, none, stdColors⟩ },
    { id := "trunk-lean-frontal", name := "Trunk Lean (Frontal)",
      targetDescription := "≤ 10°", targetMin := none, targetMax := some 10,
      targetExact := none, unit := "°", isCritical := false,
      category := "angle", validationCriteria := ⟨10, 3, none, stdColors⟩ },
    { id := "bilateral-symmetry", name := "Bilateral Symmetry",
      targetDescription := "≤ 10% difference", targetMin := none,
      targetMax := some 10, targetExact := none, unit := "%",
      isCritical := true, category := "symmetry",
      validationCriteria := ⟨10, 5, none, stdColors⟩ },
    { id := "landing-stability", name := "Landing Stability",
      targetDescription := "≤ 50mm displacement", targetMin := none,
      targetMax := some 50, targetExact := none, unit := "mm",
      isCritical := false, category := "stability",
      validationCriteria := ⟨50, 15, none, stdColors⟩ },
    { id := "arm-position-compliance", name := "Arm Position Compliance",
      targetDescription := "45° ± 10°", targetMin := some 35,
      targetMax := some 55, targetExact := none, unit := "°",
      isCritical := false, category := "alignment",
      validationCriteria := ⟨45, 10, none, stdColors⟩ }] }

/-- The full test catalog (fmsTests.ts `FMS_TESTS`), in source order. -/
def FMS_TESTS : List FMSTest := [deepSquatTest, hurdleStepTest,
  inlineLungeTest, activeStraightLegRaiseTest, trunkStabilityPushupTest,
  rotaryStabilityTest, shoulderMobilityTest, dropJumpTest]

/-! ## Metric evaluator (poseAnalysis.ts `getDetailedMetricResults`) -/

/-- JavaScript truthiness of the optional `warningThreshold` (false for
`undefined` and for 0). -/
def truthyOpt (o : Option ℚ) : Bool :=
  match o with
  | none => false
  | some w => w != 0

/-- JavaScript `Math.min` on two possibly-NaN values (NaN-propagating). -/
noncomputable def jmin (a b : JSVal) : JSVal :=
  match a, b with
  | some x, some y => some (min x y)
  | _, _ => none

/-- JavaScript `Math.atan2` (total, in radians); the signed-zero corner
`atan2(±0, -0)` is ignored — no call site can produce a negative zero. -/
noncomputable def jsAtan2 (y x : ℝ) : ℝ :=
  if 0 < x then Real.arctan (y / x)
  else if x < 0 then
    (if 0 ≤ y then Real.arctan (y / x) + Real.pi
    else Real.arctan (y / x) - Real.pi)
  else
    (if 0 < y then Real.pi / 2 else if y < 0 then -(Real.pi / 2) else 0)

/-- JavaScript `found?.angle || 0` for an optional joint angle: 0 when the
joint is absent, and — because NaN is falsy — also 0 when the stored angle
is NaN. -/
def angleOr0 (o : Option JointAngle) : JSVal :=
  match o with
  | some ja =>
    match ja.angle with
    | some x => some x
    | none => some 0
  | none => some 0

/-- JavaScript `found?.confidence || 0` for an optional joint angle
(confidence 0 maps to 0, so this is `getD 0`). -/
def confOr0 (o : Option JointAngle) : ℚ :=
  match o with
  | some ja => ja.confidence
  | none => 0

/-- The metric-specific `actualValue`/`confidence` switch of
`getDetailedMetricResults` (poseAnalysis.ts lines 366-455). Branches whose
metric ids do not occur in the catalog (`lr-hip-symmetry`, `trunk-lean`)
are embedded all the same. The `|| 0` coalescing on confidences is the
identity on rationals (0 maps to 0) and is noted per branch. -/
noncomputable def metricActualConfidence (metricId : String)
    (jointAngles : List JointAngle) (landmarks : List PoseKeypoint) :
    JSVal × ℚ :=
  if metricId = "knee-valgus-left" then
    match jointAngles.find? fun a => a.name == "Left Knee" with
    | some ja => (jabs (jsubC ja.angle 90), ja.confidence)
    | none => (some 0, 0)
  else if metricId = "knee-valgus-right" then
    match jointAngles.find? fun a => a.name == "Right Knee" with
    | some ja => (jabs (jsubC ja.angle 90), ja.confidence)
    | none => (some 0, 0)
  else if metricId = "knee-flexion-depth" then
    let leftKnee := jointAngles.find? fun a => a.name == "Left Knee"
    let rightKnee := jointAngles.find? fun a => a.name == "Right Knee"
    (jmin (angleOr0 leftKnee) (angleOr0 rightKnee),
      min (confOr0 leftKnee) (confOr0 rightKnee))
  else if metricId = "trunk-lean" then
    match jointAngles.find? fun a => a.name == "Torso Alignment" with
    | some ja => (jabs (jsubC ja.angle 90), ja.confidence)
    | none => (some 0, 0)
  else if metricId = "lr-hip-symmetry" then
    match landmarks[23]?, landmarks[24]? with
    | some leftHip, some rightHip =>
      (some ((|leftHip.y - rightHip.y| * 100 : ℚ) : ℝ),
        min leftHip.visibility rightHip.visibility * 100)
    | _, _ => (some 0, 0)
  else if metricId = "pelvic-rotation" then
    match landmarks[23]?, landmarks[24]? with
    | some l23, some l24 =>
      (some |jsAtan2 ((l24.y - l23.y : ℚ) : ℝ) ((l24.x - l23.x : ℚ) : ℝ) *
          180 / Real.pi|,
        min l23.visibility l24.visibility * 100)
    | _, _ => (some 0, 0)
  else if metricId = "front-knee-flexion" then
    let frontKnee := (jointAngles.find? fun a => a.name == "Left Knee").orElse
      fun _ => jointAngles.find? fun a => a.name == "Right Knee"
    (angleOr0 frontKnee, confOr0 frontKnee)
  else if metricId = "pelvic-tilt" then
    match landmarks[11]?, landmarks[12]?, landmarks[23]?, landmarks[24]? with
    | some l11, some l12, some l23, some l24 =>
      (some |jsAtan2
          ((((l11.y + l12.y) / 2 - (l23.y + l24.y) / 2 : ℚ)) : ℝ)
          ((((l11.x + l12.x) / 2 - (l23.x + l24.x) / 2 : ℚ)) : ℝ) *
          180 / Real.pi - 90|,
        min (min (min l11.visibility l12.visibility) l23.visibility)
          l24.visibility * 100)
    | _, _, _, _ => (some 0, 0)
  else if metricId = "trail-leg-hip-flexion" then
    let hipAngle := (jointAngles.find? fun a => a.name == "Left Hip").orElse
      fun _ => jointAngles.find? fun a => a.name == "Right Hip"
    (angleOr0 hipAngle, confOr0 hipAngle)
  else (some 0, 0)

/-- Pass/warning classification of one metric result (poseAnalysis.ts lines
458-477): min+max, min-only and max-only bounds are inclusive, and their
warning bands are computed only when `validationCriteria.warningThreshold`
is truthy; the exact-target warning band is unconditional. -/
noncomputable def classifyMetric (m : AssessmentMetricDefinition)
    (actualValue : JSVal) : Bool × Bool :=
  let tol := m.validationCriteria.tolerance
  let gate := truthyOpt m.validationCriteria.warningThreshold
  match m.targetMin, m.targetMax, m.targetExact with
  | some mn, some mx, _ =>
    let pass := jsGe actualValue (mn : ℝ) && jsLe actualValue (mx : ℝ)
    (pass, if gate then !pass && jsGe actualValue ((mn : ℝ) - (tol : ℝ)) &&
      jsLe actualValue ((mx : ℝ) + (tol : ℝ)) else false)
  | some mn, none, _ =>
    let pass := jsGe actualValue (mn : ℝ)
    (pass, if gate then !pass && jsGe actualValue ((mn : ℝ) - (tol : ℝ))
      else false)
  | none, some mx, _ =>
    let pass := jsLe actualValue (mx : ℝ)
    (pass, if gate then !pass && jsLe actualValue ((mx : ℝ) + (tol : ℝ))
      else false)
  | none, none, some te =>
    let pass := jsLe (jabs (jsubC actualValue (te : ℝ))) (tol : ℝ)
    (pass, !pass && jsLe (jabs (jsubC actualValue (te : ℝ))) ((tol : ℝ) * 2))
  | none, none, none => (false, false)

/-- Deviation of one metric result (poseAnalysis.ts lines 479-484). -/
noncomputable def metricDeviation (m : AssessmentMetricDefinition)
    (a : JSVal) : JSVal :=
  match m.targetExact with
  | some te => jabs (jsubC a (te : ℝ))
  | none =>
    match m.targetMin, m.targetMax with
    | some mn, some mx =>
      if jsLt a (mn : ℝ) then a.map fun x => (mn : ℝ) - x
      else if jsGt a (mx : ℝ) then a.map fun x => x - (mx : ℝ)
      else some 0
    | some mn, none =>
      if jsLt a (mn : ℝ) then a.map fun x => (mn : ℝ) - x else some 0
    | none, some mx =>
      if jsGt a (mx : ℝ) then a.map fun x => x - (mx : ℝ) else some 0
    | none, none => some 0

/-- Deviation direction of one metric result (poseAnalysis.ts lines
486-490); the inside-band else branch is '+', as in the source ternary. -/
noncomputable def metricDirection (m : AssessmentMetricDefinition)
    (a : JSVal) : DeviationDirection :=
  match m.targetExact with
  | some te => if jsGt a (te : ℝ) then .plus else .minus
  | none =>
    match m.targetMin, m.targetMax with
    | some mn, some mx =>
      if jsLt a (mn : ℝ) then .minus
      else if jsGt a (mx : ℝ) then .plus else .plus
    | some mn, none => if jsLt a (mn : ℝ) then .minus else .plus
    | none, some mx => if jsGt a (mx : ℝ) then .plus else .plus
    | none, none => .plus

/-- Embedding of `getDetailedMetricResults` (poseAnalysis.ts lines 351-513):
looks up the test by id (empty list when unknown), derives the joint angles
once, and maps every MetricDefinition of the test to exactly one
MetricResult — a total function, never a thrown error. -/
noncomputable def getDetailedMetricResults (testId : String)
    (landmarks : List PoseKeypoint) : List AssessmentMetricResult :=
  match FMS_TESTS.find? fun t => t.id == testId with
  | none => []
  | some test =>
    let jointAngles := calculateAllJointAngles landmarks
    test.metrics.map fun metric =>
      let ac := metricActualConfidence metric.id jointAngles landmarks
      let pw := classifyMetric metric ac.1
      { metricId := metric.id, name := metric.name,
        targetDescription := metric.targetDescription,
        actualValue := jround10 ac.1,
        unit := metric.unit, pass := pw.1, warning := pw.2,
        isCritical := metric.isCritical, category := metric.category,
        deviation := jround10 (metricDeviation metric ac.1),
        deviationDirection := metricDirection metric ac.1,
        confidence := jsRoundQ ac.2, timestamp := 0 }

/-! ## Claim theorems: metric evaluator classification (C4) -/

/-- With no truthy warningThreshold and no exact target, the warning flag is
always false. -/
theorem classifyMetric_no_warning (m : AssessmentMetricDefinition)
    (hw : m.validationCriteria.warningThreshold = none)
    (he : m.targetExact = none) (a : JSVal) :
    (classifyMetric m a).2 = false := by
  rcases hm1 : m.targetMin with - | mn <;> rcases hm2 : m.targetMax with - | mx <;>
    simp [classifyMetric, hm1, hm2, he, hw, truthyOpt]

/-- For a metric with at least one min/max bound, pass is exactly the
inclusive bound test. -/
theorem classifyMetric_pass_iff (m : AssessmentMetricDefinition)
    (hb : m.targetMin ≠ none ∨ m.targetMax ≠ none) (v : ℝ) :
    ((classifyMetric m (some v)).1 = true ↔
      ((∀ mn ∈ m.targetMin, (mn : ℝ) ≤ v) ∧ (∀ mx ∈ m.targetMax, v ≤ (mx : ℝ)))) := by
  rcases hm1 : m.targetMin with - | mn <;> rcases hm2 : m.targetMax with - | mx
  · rw [hm1, hm2] at hb
    rcases hb with hb | hb <;> exact absurd rfl hb
  · simp [classifyMetric, hm1, hm2, jsLe]
  · simp [classifyMetric, hm1, hm2, jsGe]
  · simp [classifyMetric, hm1, hm2, jsGe, jsLe]

/-- C4 counterexample: the deep-squat knee-valgus-left metric has
`targetMax = 15` and `tolerance = 5`, yet an actual value at
`bound + tolerance = 20` is classified `(pass, warning) = (false, false)` —
fail, not the warning the claim requires, because no catalog metric defines
`warningThreshold` and the warning branch never runs. -/
theorem C4_counterexample :
    deepSquatTest ∈ FMS_TESTS ∧ kneeValgusLeftDef ∈ deepSquatTest.metrics ∧
    kneeValgusLeftDef.targetMax = some 15 ∧
    kneeValgusLeftDef.validationCriteria.tolerance = 5 ∧
    classifyMetric kneeValgusLeftDef (some (15 + 5)) = (false, false) := by
  refine ⟨by simp [FMS_TESTS], by simp [deepSquatTest], rfl, rfl, ?_⟩
  simp only [classifyMetric, kneeValgusLeftDef, stdColors, truthyOpt, jsLe]
  norm_num

/-- C4 (amended): for every MetricDefinition of the catalog and every actual
value, bounds are inclusive — the classification passes exactly when the
value satisfies every defined min bound (≥) and max bound (≤) — and the
warning state is always false (no catalog entry defines `warningThreshold`
and none has an exact target), so any value outside the bounds, including
one at `bound + tolerance`, is classified fail. -/
theorem C4_metric_classification (t : FMSTest) (ht : t ∈ FMS_TESTS)
    (m : AssessmentMetricDefinition) (hm : m ∈ t.metrics) (v : ℝ) :
    (classifyMetric m (some v)).2 = false ∧
    ((classifyMetric m (some v)).1 = true ↔
      ((∀ mn ∈ m.targetMin, (mn : ℝ) ≤ v) ∧ (∀ mx ∈ m.targetMax, v ≤ (mx : ℝ)))) := by
  have hprops : m.validationCriteria.warningThreshold = none ∧
      m.targetExact = none ∧ (m.targetMin ≠ none ∨ m.targetMax ≠ none) := by
    fin_cases ht <;>
      simp only [FMS_TESTS, deepSquatTest, hurdleStepTest, inlineLungeTest,
        activeStraightLegRaiseTest, trunkStabilityPushupTest,
        rotaryStabilityTest, shoulderMobilityTest, dropJumpTest,
        kneeValgusLeftDef] at hm <;>
      fin_cases hm <;> simp
  exact ⟨classifyMetric_no_warning m hprops.1 hprops.2.1 _,
    classifyMetric_pass_iff m hprops.2.2 v⟩

/-- Witness for C4 at the deep-squat knee-valgus-left metric: value 3 is
within the max bound and passes; value 20 (= bound + tolerance) has warning
false. -/
theorem C4_witness :
    (classifyMetric kneeValgusLeftDef (some 3)).1 = true ∧
    (classifyMetric kneeValgusLeftDef (some 20)).2 = false := by
  constructor
  · refine (C4_metric_classification deepSquatTest (by simp [FMS_TESTS])
      kneeValgusLeftDef (by simp [deepSquatTest]) 3).2.mpr ?_
    constructor
    · intro mn hmn
      simp [kneeValgusLeftDef] at hmn
    · intro mx hmx
      simp [kneeValgusLeftDef] at hmx
      rw [← hmx]
      norm_num
  · exact (C4_metric_classification deepSquatTest (by simp [FMS_TESTS])
      kneeValgusLeftDef (by simp [deepSquatTest]) 20).1

/-! ## Claim theorems: metric evaluator totality and defaults (C5) -/

/-- A joint block emits nothing when every landmark of the frame is at or
below the 0.5 visibility threshold. -/
theorem jointBlock_nil_of_lowvis (lm : List PoseKeypoint) (i1 i2 i3 : ℕ)
    (name desc : String) (mn mx : ℚ)
    (hv : ∀ p ∈ lm, p.visibility ≤ 1 / 2) :
    jointBlock lm i1 i2 i3 name desc mn mx = [] := by
  unfold jointBlock
  cases h1 : lm[i1]? with
  | none => rfl
  | some a =>
    cases h2 : lm[i2]? with
    | none => rfl
    | some b =>
      cases h3 : lm[i3]? with
      | none => rfl
      | some c =>
        have hcond : ¬(a.visibility > 1 / 2 ∧ b.visibility > 1 / 2 ∧
            c.visibility > 1 / 2) := by
          rintro ⟨ha, -, -⟩
          exact absurd ha (not_lt.2 (hv a (List.getElem?_mem h1)))
        dsimp only
        rw [if_neg hcond]

/-- The joint angle engine emits nothing on an all-low-visibility frame. -/
theorem calculateAllJointAngles_nil_of_lowvis (lm : List PoseKeypoint)
    (hv : ∀ p ∈ lm, p.visibility ≤ 1 / 2) :
    calculateAllJointAngles lm = [] := by
  unfold calculateAllJointAngles
  split_ifs with h
  · rfl
  · rw [jointBlock_nil_of_lowvis lm 12 11 13 _ _ _ _ hv,
      jointBlock_nil_of_lowvis lm 11 12 14 _ _ _ _ hv,
      jointBlock_nil_of_lowvis lm 11 13 15 _ _ _ _ hv,
      jointBlock_nil_of_lowvis lm 12 14 16 _ _ _ _ hv,
      jointBlock_nil_of_lowvis lm 11 23 25 _ _ _ _ hv,
      jointBlock_nil_of_lowvis lm 12 24 26 _ _ _ _ hv,
      jointBlock_nil_of_lowvis lm 23 25 27 _ _ _ _ hv,
      jointBlock_nil_of_lowvis lm 24 26 28 _ _ _ _ hv,
      jointBlock_nil_of_lowvis lm 25 27 31 _ _ _ _ hv,
      jointBlock_nil_of_lowvis lm 26 28 32 _ _ _ _ hv,
      jointBlock_nil_of_lowvis lm 11 23 24 _ _ _ _ hv]
    rfl

/-- A 33-landmark frame in which every landmark sits at visibility 0.1,
below the 0.5 gating threshold. -/
def lowVisFrame : List PoseKeypoint := List.replicate 33 ⟨0, 0, 0, 1 / 10⟩

/-- Every landmark of `lowVisFrame` is at or below visibility 1/2. -/
theorem lowVisFrame_lowvis : ∀ p ∈ lowVisFrame, p.visibility ≤ 1 / 2 := by
  intro p hp
  rw [List.eq_of_mem_replicate hp]
  norm_num

/-- C5 counterexample: on a frame whose landmarks all have visibility 0.1 —
below the 0.5 threshold — the hurdle-step evaluation reports the
pelvic-rotation metric with confidence 10, not 0: the direct-landmark
metrics are computed whenever the landmarks are present, with
`confidence = min(visibilities) * 100`, regardless of the visibility
threshold the claim invokes. -/
theorem C5_counterexample :
    (lowVisFrame.getD 23 pkDefault).visibility < 1 / 2 ∧
    (lowVisFrame.getD 24 pkDefault).visibility < 1 / 2 ∧
    (getDetailedMetricResults "hurdle-step" lowVisFrame).map
      (fun r => r.confidence) = [10, 0] := by
  refine ⟨?_, ?_, ?_⟩
  · rw [show (lowVisFrame.getD 23 pkDefault).visibility = 1 / 10 from rfl]
    norm_num
  · rw [show (lowVisFrame.getD 24 pkDefault).visibility = 1 / 10 from rfl]
    norm_num
  · have hJA : calculateAllJointAngles lowVisFrame = [] :=
      calculateAllJointAngles_nil_of_lowvis _ lowVisFrame_lowvis
    have h23 : lowVisFrame[23]? = some ⟨0, 0, 0, 1 / 10⟩ := rfl
    have h24 : lowVisFrame[24]? = some ⟨0, 0, 0, 1 / 10⟩ := rfl
    -- pelvic-rotation: landmarks 23 and 24 are present, so the confidence
    -- is min(0.1, 0.1) * 100 = 10, rounded to 10
    have hpr : metricActualConfidence "pelvic-rotation" [] lowVisFrame =
        (some |jsAtan2 (((0 : ℚ) - 0 : ℚ) : ℝ) (((0 : ℚ) - 0 : ℚ) : ℝ) *
            180 / Real.pi|,
          min (1 / 10 : ℚ) (1 / 10) * 100) := by
      unfold metricActualConfidence
      rw [h23, h24]
      rfl
    -- front-knee-flexion: no joint angles, so confidence 0
    have hfk : metricActualConfidence "front-knee-flexion" [] lowVisFrame =
        (some 0, 0) := rfl
    unfold getDetailedMetricResults
    rw [show FMS_TESTS.find? (fun t => t.id == "hurdle-step") =
      some hurdleStepTest from rfl]
    simp only [hJA, hurdleStepTest, List.map_cons, List.map_nil]
    rw [hpr, hfk]
    norm_num [jsRoundQ]

/-- C5 (amended): the evaluator is a total function returning exactly one
MetricResult per MetricDefinition of the selected test, in catalog order
(never a thrown error). Angle-derived metrics whose source joint angles are
unavailable (as on an all-low-visibility frame) report actualValue 0 and
confidence 0 — but direct-landmark metrics such as pelvic-rotation are
computed whenever landmarks 23/24 exist, regardless of the visibility
threshold, reporting `round(min(vis23, vis24) * 100)` as confidence. -/
theorem C5_metric_evaluator :
    (∀ t ∈ FMS_TESTS, ∀ lm : List PoseKeypoint,
      (getDetailedMetricResults t.id lm).map (fun r => r.metricId) =
        t.metrics.map (fun m => m.id)) ∧
    (∀ lm : List PoseKeypoint, (∀ p ∈ lm, p.visibility ≤ 1 / 2) →
      ∀ r ∈ getDetailedMetricResults "deep-squat" lm,
        r.actualValue = some 0 ∧ r.confidence = 0) ∧
    (∀ lm : List PoseKeypoint, 33 ≤ lm.length →
      ∃ r, (getDetailedMetricResults "hurdle-step" lm).head? = some r ∧
        r.metricId = "pelvic-rotation" ∧
        r.confidence = jsRoundQ (min (lm.getD 23 pkDefault).visibility
          (lm.getD 24 pkDefault).visibility * 100)) := by
  refine ⟨?_, ?_, ?_⟩
  · intro t ht lm
    fin_cases ht <;> rfl
  · intro lm hv r hr
    have hJA := calculateAllJointAngles_nil_of_lowvis lm hv
    unfold getDetailedMetricResults at hr
    rw [show FMS_TESTS.find? (fun t => t.id == "deep-squat") =
      some deepSquatTest from rfl] at hr
    simp only [hJA, deepSquatTest, kneeValgusLeftDef, List.map_cons,
      List.map_nil, List.mem_cons, List.not_mem_nil, or_false] at hr
    rcases hr with rfl | rfl | rfl <;>
      refine ⟨?_, ?_⟩ <;>
      simp [metricActualConfidence, jmin, angleOr0, confOr0, jround10,
        jsRound, jsRoundQ, List.find?] <;>
      norm_num
  · intro lm hlen
    unfold getDetailedMetricResults
    rw [show FMS_TESTS.find? (fun t => t.id == "hurdle-step") =
      some hurdleStepTest from rfl]
    simp only [hurdleStepTest, List.map_cons, List.map_nil, List.head?]
    refine ⟨_, rfl, rfl, ?_⟩
    have h23 : lm[23]? = some (lm.getD 23 pkDefault) := by
      rw [List.getElem?_eq_getElem (by omega),
        List.getD_eq_getElem lm pkDefault (by omega)]
    have h24 : lm[24]? = some (lm.getD 24 pkDefault) := by
      rw [List.getElem?_eq_getElem (by omega),
        List.getD_eq_getElem lm pkDefault (by omega)]
    rw [show metricActualConfidence "pelvic-rotation"
        (calculateAllJointAngles lm) lm =
        (some |jsAtan2 (((lm.getD 24 pkDefault).y - (lm.getD 23 pkDefault).y : ℚ) : ℝ)
            (((lm.getD 24 pkDefault).x - (lm.getD 23 pkDefault).x : ℚ) : ℝ) *
            180 / Real.pi|,
          min (lm.getD 23 pkDefault).visibility
            (lm.getD 24 pkDefault).visibility * 100) by
      unfold metricActualConfidence
      simp only [h23, h24]
      rfl]

/-- Witness for C5 at the concrete catalog and low-visibility frame. -/
theorem C5_witness :
    (getDetailedMetricResults deepSquatTest.id lowVisFrame).map
      (fun r => r.metricId) = deepSquatTest.metrics.map (fun m => m.id) ∧
    (∃ r, (getDetailedMetricResults "hurdle-step" lowVisFrame).head? = some r ∧
      r.metricId = "pelvic-rotation" ∧
      r.confidence = jsRoundQ (min (lowVisFrame.getD 23 pkDefault).visibility
        (lowVisFrame.getD 24 pkDefault).visibility * 100)) :=
  ⟨C5_metric_evaluator.1 deepSquatTest (by simp [FMS_TESTS]) lowVisFrame,
    C5_metric_evaluator.2.2 lowVisFrame (by simp [lowVisFrame])⟩

/-! ## Claim theorems: scoring engine, angle kernels, bilateral symmetry -/

/-- Sample failing critical metric result, used by concrete witnesses. -/
def sampleFailResult : AssessmentMetricResult :=
  { metricId := "knee-valgus-left", name := "Knee Valgus Angle (L)"
    targetDescription := "≤ 15°", actualValue := some 20, unit := "°"
    pass := false, warning := false, isCritical := true, category := "angle"
    deviation := some 5, deviationDirection := .plus, confidence := 90
    timestamp := 0 }

/-- C1: for every non-empty MetricResult list the Scoring Engine's automatic
score equals the spec's rule table (first match wins) applied to the counts
of failed critical and failed non-critical metrics; in particular the table
gives 3 at (0,0), 2 for one failed critical, 1 for two failed criticals. -/
theorem C1_automaticScore_follows_spec_table (testId : String)
    (metricResults : List AssessmentMetricResult) (h : metricResults ≠ []) :
    generateAutomaticScore testId metricResults =
      specScoreTable
        (metricResults.countP fun m => m.isCritical && !m.pass)
        (metricResults.countP fun m => !m.isCritical && !m.pass) ∧
    specScoreTable 0 0 = 3 ∧ (∀ n, specScoreTable 1 n = 2) ∧
    (∀ n, specScoreTable 2 n = 1) := by
  refine ⟨?_, by simp [specScoreTable], fun n => by simp [specScoreTable],
    fun n => by simp [specScoreTable]⟩
  unfold generateAutomaticScore
  rw [if_neg (by simpa using h)]
  simp only []
  rw [failedCount_eq metricResults fun m => m.isCritical,
    failedCount_eq metricResults fun m => !m.isCritical]
  rfl

/-- Witness for C1 at a concrete one-element metric list. -/
theorem C1_witness :
    generateAutomaticScore "deep-squat" [sampleFailResult] =
      specScoreTable
        ([sampleFailResult].countP fun m => m.isCritical && !m.pass)
        ([sampleFailResult].countP fun m => !m.isCritical && !m.pass) ∧
    specScoreTable 0 0 = 3 ∧ (∀ n, specScoreTable 1 n = 2) ∧
    (∀ n, specScoreTable 2 n = 1) :=
  C1_automaticScore_follows_spec_table "deep-squat" [sampleFailResult] (by simp)

/-- C10 (implicit claim): the automatic score is 0 exactly on the empty
metric-result list, and for every non-empty list it is 1, 2 or 3 — the final
else branch of `generateAutomaticScore` is unreachable. -/
theorem C10_automaticScore_range (testId : String)
    (metricResults : List AssessmentMetricResult) :
    (generateAutomaticScore testId metricResults = 0 ↔ metricResults = []) ∧
    (metricResults ≠ [] →
      generateAutomaticScore testId metricResults = 1 ∨
      generateAutomaticScore testId metricResults = 2 ∨
      generateAutomaticScore testId metricResults = 3) := by
  rcases eq_or_ne metricResults [] with he | he
  · subst he
    refine ⟨by simp [generateAutomaticScore], fun h => absurd rfl h⟩
  · have hscore : generateAutomaticScore testId metricResults = 1 ∨
        generateAutomaticScore testId metricResults = 2 ∨
        generateAutomaticScore testId metricResults = 3 := by
      unfold generateAutomaticScore
      rw [if_neg (by simpa using he)]
      simp only []
      split_ifs <;> omega
    refine ⟨⟨fun h0 => ?_, fun h => absurd h he⟩, fun _ => hscore⟩
    rcases hscore with h | h | h <;> omega

/-- Witness for C10 at a concrete one-element metric list. -/
theorem C10_witness :
    generateAutomaticScore "deep-squat" [sampleFailResult] = 1 ∨
    generateAutomaticScore "deep-squat" [sampleFailResult] = 2 ∨
    generateAutomaticScore "deep-squat" [sampleFailResult] = 3 :=
  (C10_automaticScore_range "deep-squat" [sampleFailResult]).2 (by simp)

/-- C3: evaluation at the failing input. At a degenerate triple (first point
equal to the vertex point) the 2D kernel `calculateAngle` divides 0/0 and
returns NaN (modelled `none`), not 0; the 3D kernel `calculateJointAngle3D`
returns 0 on the same degenerate geometry, as the spec requires of both. -/
theorem C3_calculateAngle_degenerate_is_nan :
    calculateAngle ⟨1, 1, 0, 1⟩ ⟨1, 1, 0, 1⟩ ⟨2, 3, 0, 1⟩ = none ∧
    calculateJointAngle3D ⟨1, 1, 0⟩ ⟨1, 1, 0⟩ ⟨2, 3, 0⟩ .frontal = 0 := by
  constructor
  · norm_num [calculateAngle]
  · norm_num [calculateJointAngle3D]

/-- C9 counterexample: the bilateral symmetry metric reports the constant
confidence 95 at two inputs with entirely different left/right values, so
its confidence is not derived from the inputs, contrary to the claim. -/
theorem C9_counterexample :
    (calculateBilateralSymmetry 10 20).confidence = 95 ∧
    (calculateBilateralSymmetry 3 100).confidence = 95 :=
  ⟨rfl, rfl⟩

/-- C9 (amended): the bilateral symmetry metric's confidence is the
hard-coded constant 95 for every pair of inputs, not a value derived from
the landmark visibilities behind them. -/
theorem C9_bilateralSymmetry_constant_confidence (leftMetric rightMetric : ℚ) :
    (calculateBilateralSymmetry leftMetric rightMetric).confidence = 95 := rfl

end FMS
